import Mathlib

/-!
Verification development for the credential vault and connection health
subsystem of the postgressAdmin repository
(src/src-tauri/src/connection_health_service.rs,
src/src-tauri/src/credential_vault.rs).

Modelling conventions:
  - Rust `String` fields are Lean `String`; `len()` is `String.length` and
    `trim()` is `trimStr` below (the configurations of interest are ASCII,
    where byte length and character length agree).
  - Rust `Duration` configuration fields are modelled by their whole number of
    seconds (`as_secs()`), as a `Nat`.
  - Filesystem existence (`std::path::Path::exists`) is an environment
    parameter `fs : String → Bool`.
  - Timestamps (`chrono::DateTime<Utc>`) are integers (seconds); `Utc::now()`
    is an environment parameter.
  - The external crates (aes-gcm, base64, serde_json, md5, keyring, the
    postgres driver) are modelled by explicit executable contracts; each such
    definition carries a doc comment naming the crate it stands for.
-/

namespace PgAdmin

/-! ## Data model (connection_profile.rs) -/

/-- Health status of a profile (enum HealthStatus). -/
inductive HealthStatus where
  | Healthy
  | Warning
  | Error
  | Unknown
deriving DecidableEq, Repr

/-- Result of a single health check (struct HealthCheckResult). -/
structure HealthCheckResult where
  timestamp : Int
  status : HealthStatus
  response_time_ms : Option Nat
  error_message : Option String
deriving DecidableEq, Repr

/-- SSL modes supported by PostgreSQL (enum SSLMode). -/
inductive SSLMode where
  | Disable
  | Allow
  | Prefer
  | Require
  | VerifyCa
  | VerifyFull
deriving DecidableEq, Repr

/-- SSL/TLS configuration options (struct SSLConfig). -/
structure SSLConfig where
  mode : SSLMode
  cert : Option String
  ssl_key : Option String
  ca : Option String
deriving DecidableEq, Repr

/-- Advanced connection configuration (struct AdvancedConnectionConfig).
Duration fields carry whole seconds; `retry_delay` carries seconds as in the
source struct. `custom_parameters` (a HashMap in the source) is a list of
key/value pairs. -/
structure AdvancedConnectionConfig where
  host : String
  port : Nat
  database : String
  username : String
  connection_timeout : Nat
  query_timeout : Nat
  max_connections : Nat
  idle_timeout : Nat
  retry_attempts : Nat
  retry_delay : Nat
  ssl_config : SSLConfig
  custom_parameters : List (String × String)
  connection_string_template : Option String
deriving DecidableEq, Repr

/-! ## Connection validation (connection_health_service.rs, validate_connection_config) -/

/-- Connection validation errors (enum ConnectionValidationError). -/
inductive ConnectionValidationError where
  | InvalidHost (msg : String)
  | InvalidPort (msg : String)
  | InvalidDatabase (msg : String)
  | InvalidUsername (msg : String)
  | InvalidSSLConfig (msg : String)
  | InvalidTimeout (msg : String)
  | InvalidCustomParameter (pkey : String) (msg : String)
deriving DecidableEq, Repr

/-- Model of Rust str::trim, executable on literals: drop leading and
trailing whitespace characters. -/
def trimStr (s : String) : String :=
  String.mk (((s.data.dropWhile Char.isWhitespace).reverse.dropWhile
    Char.isWhitespace).reverse)

/-- Host checks of validate_connection_config: trim-empty, then length over 255. -/
def hostErrors (config : AdvancedConnectionConfig) : List ConnectionValidationError :=
  if (trimStr config.host) = "" then
    [.InvalidHost "Host cannot be empty"]
  else if config.host.length > 255 then
    [.InvalidHost "Host name is too long (max 255 characters)"]
  else []

/-- Port check of validate_connection_config. -/
def portErrors (config : AdvancedConnectionConfig) : List ConnectionValidationError :=
  if config.port = 0 ∨ config.port > 65535 then
    [.InvalidPort "Port must be between 1 and 65535"]
  else []

/-- Database name checks of validate_connection_config. -/
def databaseErrors (config : AdvancedConnectionConfig) : List ConnectionValidationError :=
  if (trimStr config.database) = "" then
    [.InvalidDatabase "Database name cannot be empty"]
  else if config.database.length > 63 then
    [.InvalidDatabase "Database name is too long (max 63 characters)"]
  else []

/-- Username checks of validate_connection_config. -/
def usernameErrors (config : AdvancedConnectionConfig) : List ConnectionValidationError :=
  if (trimStr config.username) = "" then
    [.InvalidUsername "Username cannot be empty"]
  else if config.username.length > 63 then
    [.InvalidUsername "Username is too long (max 63 characters)"]
  else []

/-- Timeout checks of validate_connection_config (connection then query timeout). -/
def timeoutErrors (config : AdvancedConnectionConfig) : List ConnectionValidationError :=
  (if config.connection_timeout = 0 ∨ config.connection_timeout > 300 then
    [.InvalidTimeout "Connection timeout must be between 1 and 300 seconds"]
  else []) ++
  (if config.query_timeout = 0 ∨ config.query_timeout > 3600 then
    [.InvalidTimeout "Query timeout must be between 1 and 3600 seconds"]
  else [])

/-- One SSL file check: the option is present, non-blank after trim, and the
path does not exist on the filesystem `fs`. -/
def sslFileError (fs : String → Bool) (file : Option String) (label : String) :
    List ConnectionValidationError :=
  match file with
  | none => []
  | some path =>
    if (trimStr path) ≠ "" ∧ fs path = false then
      [.InvalidSSLConfig (label ++ path)]
    else []

/-- SSL checks of validate_connection_config (cert, key, ca in source order). -/
def sslErrors (fs : String → Bool) (config : AdvancedConnectionConfig) :
    List ConnectionValidationError :=
  sslFileError fs config.ssl_config.cert "SSL certificate file not found: " ++
  sslFileError fs config.ssl_config.ssl_key "SSL key file not found: " ++
  sslFileError fs config.ssl_config.ca "SSL CA file not found: "

/-- Custom parameter checks of validate_connection_config: per entry, an error
for a trim-empty key and an error for a value longer than 1024. -/
def customParameterErrors (config : AdvancedConnectionConfig) :
    List ConnectionValidationError :=
  config.custom_parameters.flatMap fun kv =>
    (if (trimStr kv.1) = "" then
      [.InvalidCustomParameter kv.1 "Parameter name cannot be empty"]
    else []) ++
    (if kv.2.length > 1024 then
      [.InvalidCustomParameter kv.1 "Parameter value is too long (max 1024 characters)"]
    else [])

/-- Accumulated error list of validate_connection_config, in source push order. -/
def validationErrors (fs : String → Bool) (config : AdvancedConnectionConfig) :
    List ConnectionValidationError :=
  hostErrors config ++ portErrors config ++ databaseErrors config ++
  usernameErrors config ++ timeoutErrors config ++ sslErrors fs config ++
  customParameterErrors config

/-- Shallow embedding of validate_connection_config: Ok on an empty error list,
otherwise the accumulated list. -/
def validate_connection_config (fs : String → Bool)
    (config : AdvancedConnectionConfig) :
    Except (List ConnectionValidationError) Unit :=
  let errors := validationErrors fs config
  if errors = [] then .ok () else .error errors

/-! ## Claim C1: spec-worded field rules and correspondence -/

/-- Constructor kind of a validation error (used to count variants). -/
def kindOf : ConnectionValidationError → Nat
  | .InvalidHost _ => 0
  | .InvalidPort _ => 1
  | .InvalidDatabase _ => 2
  | .InvalidUsername _ => 3
  | .InvalidSSLConfig _ => 4
  | .InvalidTimeout _ => 5
  | .InvalidCustomParameter _ _ => 6

/-- Claim-worded rule for one SSL path: if specified and non-blank, it must
exist on the filesystem. -/
def sslPathRuleHolds (fs : String → Bool) (file : Option String) : Bool :=
  match file with
  | none => true
  | some path => if (trimStr path) = "" then true else fs path

/-- Claim C1 documented field rules, following the words of the claim: host
non-empty and at most 255 chars, port 1-65535, database and username non-empty
and at most 63 chars, connection timeout 1-300 seconds, query timeout 1-3600
seconds, non-blank SSL cert/key/CA paths existing on the filesystem,
custom-parameter keys non-empty and values at most 1024 chars. -/
def specFieldRulesHold (fs : String → Bool) (c : AdvancedConnectionConfig) : Bool :=
  (c.host ≠ "" : Bool) && decide (c.host.length ≤ 255) &&
  decide (1 ≤ c.port) && decide (c.port ≤ 65535) &&
  (c.database ≠ "" : Bool) && decide (c.database.length ≤ 63) &&
  (c.username ≠ "" : Bool) && decide (c.username.length ≤ 63) &&
  decide (1 ≤ c.connection_timeout) && decide (c.connection_timeout ≤ 300) &&
  decide (1 ≤ c.query_timeout) && decide (c.query_timeout ≤ 3600) &&
  sslPathRuleHolds fs c.ssl_config.cert &&
  sslPathRuleHolds fs c.ssl_config.ssl_key &&
  sslPathRuleHolds fs c.ssl_config.ca &&
  c.custom_parameters.all fun kv =>
    (kv.1 ≠ "" : Bool) && decide (kv.2.length ≤ 1024)

/-- Amended field rules: as the claim, except that "non-empty" reads
"non-empty after trimming whitespace" for host, database, username and
custom-parameter keys, matching the trim-based checks of the source. -/
def amendedFieldRulesHold (fs : String → Bool) (c : AdvancedConnectionConfig) : Bool :=
  ((trimStr c.host) ≠ "" : Bool) && decide (c.host.length ≤ 255) &&
  decide (1 ≤ c.port) && decide (c.port ≤ 65535) &&
  ((trimStr c.database) ≠ "" : Bool) && decide (c.database.length ≤ 63) &&
  ((trimStr c.username) ≠ "" : Bool) && decide (c.username.length ≤ 63) &&
  decide (1 ≤ c.connection_timeout) && decide (c.connection_timeout ≤ 300) &&
  decide (1 ≤ c.query_timeout) && decide (c.query_timeout ≤ 3600) &&
  sslPathRuleHolds fs c.ssl_config.cert &&
  sslPathRuleHolds fs c.ssl_config.ssl_key &&
  sslPathRuleHolds fs c.ssl_config.ca &&
  c.custom_parameters.all fun kv =>
    ((trimStr kv.1) ≠ "" : Bool) && decide (kv.2.length ≤ 1024)

/-- Violation indicator for one SSL path, matching the source check. -/
def sslViolation (fs : String → Bool) (file : Option String) : Nat :=
  match file with
  | none => 0
  | some path => if (trimStr path) ≠ "" ∧ fs path = false then 1 else 0

/-- Filesystem in which no path exists (used for concrete configurations whose
SSL paths are all absent). -/
def noFs : String → Bool := fun _ => false

/-- Baseline valid configuration used in concrete instances. -/
def baseConfig : AdvancedConnectionConfig :=
  { host := "localhost", port := 5432, database := "test_db",
    username := "test_user", connection_timeout := 30, query_timeout := 300,
    max_connections := 10, idle_timeout := 300, retry_attempts := 3,
    retry_delay := 1,
    ssl_config := { mode := .Prefer, cert := none, ssl_key := none, ca := none },
    custom_parameters := [], connection_string_template := none }

/-- Configuration whose host is a single space: non-empty by the claim rules,
but rejected by the source (trim-empty). -/
def blankHostConfig : AdvancedConnectionConfig := { baseConfig with host := " " }

lemma indicator_eq_zero (p : Prop) [Decidable p] :
    ((if p then 1 else 0 : Nat) = 0) ↔ ¬p := by
  split_ifs with h <;> simp [h]

lemma hostErrors_kind (c : AdvancedConnectionConfig) :
    ∀ e ∈ hostErrors c, kindOf e = 0 := by
  intro e he
  simp only [hostErrors] at he
  split_ifs at he <;> simp_all [kindOf]

lemma portErrors_kind (c : AdvancedConnectionConfig) :
    ∀ e ∈ portErrors c, kindOf e = 1 := by
  intro e he
  simp only [portErrors] at he
  split_ifs at he <;> simp_all [kindOf]

lemma databaseErrors_kind (c : AdvancedConnectionConfig) :
    ∀ e ∈ databaseErrors c, kindOf e = 2 := by
  intro e he
  simp only [databaseErrors] at he
  split_ifs at he <;> simp_all [kindOf]

lemma usernameErrors_kind (c : AdvancedConnectionConfig) :
    ∀ e ∈ usernameErrors c, kindOf e = 3 := by
  intro e he
  simp only [usernameErrors] at he
  split_ifs at he <;> simp_all [kindOf]

lemma timeoutErrors_kind (c : AdvancedConnectionConfig) :
    ∀ e ∈ timeoutErrors c, kindOf e = 5 := by
  intro e he
  simp only [timeoutErrors, List.mem_append] at he
  rcases he with he | he <;> split_ifs at he <;> simp_all [kindOf]

lemma sslFileError_kind (fs : String → Bool) (o : Option String) (lbl : String) :
    ∀ e ∈ sslFileError fs o lbl, kindOf e = 4 := by
  intro e he
  cases o with
  | none => simp [sslFileError] at he
  | some path =>
    simp only [sslFileError] at he
    split_ifs at he <;> simp_all [kindOf]

lemma sslErrors_kind (fs : String → Bool) (c : AdvancedConnectionConfig) :
    ∀ e ∈ sslErrors fs c, kindOf e = 4 := by
  intro e he
  simp only [sslErrors, List.mem_append] at he
  rcases he with (he | he) | he <;> exact sslFileError_kind _ _ _ _ he

lemma customParameterErrors_kind (c : AdvancedConnectionConfig) :
    ∀ e ∈ customParameterErrors c, kindOf e = 6 := by
  intro e he
  simp only [customParameterErrors, List.mem_flatMap, List.mem_append] at he
  obtain ⟨kv, _, he⟩ := he
  rcases he with he | he <;> split_ifs at he <;> simp_all [kindOf]

lemma hostErrors_length (c : AdvancedConnectionConfig) :
    (hostErrors c).length =
      if (trimStr c.host) = "" ∨ c.host.length > 255 then 1 else 0 := by
  simp only [hostErrors]
  split_ifs with h1 h2 <;> (try simp_all) <;> omega

lemma portErrors_length (c : AdvancedConnectionConfig) :
    (portErrors c).length = if c.port = 0 ∨ c.port > 65535 then 1 else 0 := by
  simp only [portErrors]
  split_ifs <;> (try simp_all) <;> omega

lemma databaseErrors_length (c : AdvancedConnectionConfig) :
    (databaseErrors c).length =
      if (trimStr c.database) = "" ∨ c.database.length > 63 then 1 else 0 := by
  simp only [databaseErrors]
  split_ifs <;> (try simp_all) <;> omega

lemma usernameErrors_length (c : AdvancedConnectionConfig) :
    (usernameErrors c).length =
      if (trimStr c.username) = "" ∨ c.username.length > 63 then 1 else 0 := by
  simp only [usernameErrors]
  split_ifs <;> (try simp_all) <;> omega

lemma timeoutErrors_length (c : AdvancedConnectionConfig) :
    (timeoutErrors c).length =
      (if c.connection_timeout = 0 ∨ c.connection_timeout > 300 then 1 else 0) +
      (if c.query_timeout = 0 ∨ c.query_timeout > 3600 then 1 else 0) := by
  simp only [timeoutErrors, List.length_append]
  split_ifs <;> (try simp_all) <;> omega

lemma sslFileError_length (fs : String → Bool) (o : Option String) (lbl : String) :
    (sslFileError fs o lbl).length = sslViolation fs o := by
  cases o with
  | none => simp [sslFileError, sslViolation]
  | some path =>
    simp only [sslFileError, sslViolation]
    split_ifs <;> (try simp_all) <;> omega

lemma sslErrors_length (fs : String → Bool) (c : AdvancedConnectionConfig) :
    (sslErrors fs c).length =
      sslViolation fs c.ssl_config.cert + sslViolation fs c.ssl_config.ssl_key +
      sslViolation fs c.ssl_config.ca := by
  simp only [sslErrors, List.length_append, sslFileError_length]

lemma customParameterErrors_length (c : AdvancedConnectionConfig) :
    (customParameterErrors c).length =
      (c.custom_parameters.map fun kv =>
        (if (trimStr kv.1) = "" then 1 else 0) +
        (if kv.2.length > 1024 then 1 else 0)).sum := by
  simp only [customParameterErrors]
  induction c.custom_parameters with
  | nil => simp
  | cons kv t ih =>
    simp only [List.flatMap_cons, List.map_cons, List.length_append, List.sum_cons, ih]
    congr 1
    split_ifs <;> simp_all

lemma validationErrors_length (fs : String → Bool) (c : AdvancedConnectionConfig) :
    (validationErrors fs c).length =
      (if (trimStr c.host) = "" ∨ c.host.length > 255 then 1 else 0) +
      (if c.port = 0 ∨ c.port > 65535 then 1 else 0) +
      (if (trimStr c.database) = "" ∨ c.database.length > 63 then 1 else 0) +
      (if (trimStr c.username) = "" ∨ c.username.length > 63 then 1 else 0) +
      ((if c.connection_timeout = 0 ∨ c.connection_timeout > 300 then 1 else 0) +
       (if c.query_timeout = 0 ∨ c.query_timeout > 3600 then 1 else 0)) +
      (sslViolation fs c.ssl_config.cert + sslViolation fs c.ssl_config.ssl_key +
       sslViolation fs c.ssl_config.ca) +
      (c.custom_parameters.map fun kv =>
        (if (trimStr kv.1) = "" then 1 else 0) +
        (if kv.2.length > 1024 then 1 else 0)).sum := by
  simp only [validationErrors, List.length_append, hostErrors_length,
    portErrors_length, databaseErrors_length, usernameErrors_length,
    timeoutErrors_length, sslErrors_length, customParameterErrors_length]

lemma sslViolation_eq_zero (fs : String → Bool) (o : Option String) :
    sslViolation fs o = 0 ↔ sslPathRuleHolds fs o = true := by
  cases o with
  | none => simp [sslViolation, sslPathRuleHolds]
  | some path =>
    simp only [sslViolation, sslPathRuleHolds]
    split_ifs <;> simp_all

lemma customSum_eq_zero (l : List (String × String)) :
    ((l.map fun kv =>
      (if (trimStr kv.1) = "" then 1 else 0) +
      (if kv.2.length > 1024 then 1 else 0)).sum = 0) ↔
    ∀ kv ∈ l, ¬(trimStr kv.1) = "" ∧ kv.2.length ≤ 1024 := by
  induction l with
  | nil => simp
  | cons kv t ih =>
    simp only [List.map_cons, List.sum_cons, Nat.add_eq_zero, ih,
      indicator_eq_zero, List.mem_cons, forall_eq_or_imp, not_lt]

lemma validationErrors_nil_iff (fs : String → Bool) (c : AdvancedConnectionConfig) :
    validationErrors fs c = [] ↔ amendedFieldRulesHold fs c = true := by
  rw [← List.length_eq_zero, validationErrors_length]
  simp only [Nat.add_eq_zero, indicator_eq_zero, sslViolation_eq_zero,
    customSum_eq_zero, not_or, not_lt, ne_eq,
    amendedFieldRulesHold, Bool.and_eq_true, decide_eq_true_eq,
    List.all_eq_true, Nat.one_le_iff_ne_zero]
  constructor
  · rintro ⟨⟨⟨⟨⟨⟨hh, hp⟩, hd⟩, hu⟩, ⟨hct, hqt⟩⟩, ⟨⟨hc1, hc2⟩, hc3⟩⟩, hcp⟩
    refine ⟨⟨⟨⟨⟨⟨⟨⟨⟨⟨⟨⟨⟨⟨⟨hh.1, hh.2⟩, hp.1⟩, hp.2⟩, hd.1⟩, hd.2⟩, hu.1⟩, hu.2⟩,
      hct.1⟩, hct.2⟩, hqt.1⟩, hqt.2⟩, hc1⟩, hc2⟩, hc3⟩, ?_⟩
    intro kv hkv
    exact ⟨(hcp kv hkv).1, (hcp kv hkv).2⟩
  · rintro ⟨⟨⟨⟨⟨⟨⟨⟨⟨⟨⟨⟨⟨⟨⟨hh1, hh2⟩, hp1⟩, hp2⟩, hd1⟩, hd2⟩, hu1⟩, hu2⟩, hct1⟩,
      hct2⟩, hqt1⟩, hqt2⟩, hc1⟩, hc2⟩, hc3⟩, hcp⟩
    exact ⟨⟨⟨⟨⟨⟨⟨hh1, hh2⟩, ⟨hp1, hp2⟩⟩, ⟨hd1, hd2⟩⟩, ⟨hu1, hu2⟩⟩,
      ⟨⟨hct1, hct2⟩, ⟨hqt1, hqt2⟩⟩⟩, ⟨⟨hc1, hc2⟩, hc3⟩⟩,
      fun kv hkv => ⟨(hcp kv hkv).1, (hcp kv hkv).2⟩⟩

lemma countP_kind_uniform (l : List ConnectionValidationError) (k0 : Nat)
    (h : ∀ e ∈ l, kindOf e = k0) (k : Nat) :
    l.countP (fun e => kindOf e == k) = if k = k0 then l.length else 0 := by
  induction l with
  | nil => simp
  | cons a t ih =>
    have ha : kindOf a = k0 := h a (List.mem_cons_self a t)
    have ht : ∀ e ∈ t, kindOf e = k0 := fun e he => h e (List.mem_cons_of_mem a he)
    rw [List.countP_cons, ih ht]
    by_cases hk : k = k0
    · simp [hk, ha]
    · simp [hk, ha, Ne.symm hk]

lemma validationErrors_countP (fs : String → Bool) (c : AdvancedConnectionConfig)
    (k : Nat) :
    (validationErrors fs c).countP (fun e => kindOf e == k) =
      (if k = 0 then (hostErrors c).length else 0) +
      (if k = 1 then (portErrors c).length else 0) +
      (if k = 2 then (databaseErrors c).length else 0) +
      (if k = 3 then (usernameErrors c).length else 0) +
      (if k = 5 then (timeoutErrors c).length else 0) +
      (if k = 4 then (sslErrors fs c).length else 0) +
      (if k = 6 then (customParameterErrors c).length else 0) := by
  simp only [validationErrors, List.countP_append,
    countP_kind_uniform _ _ (hostErrors_kind c) k,
    countP_kind_uniform _ _ (portErrors_kind c) k,
    countP_kind_uniform _ _ (databaseErrors_kind c) k,
    countP_kind_uniform _ _ (usernameErrors_kind c) k,
    countP_kind_uniform _ _ (timeoutErrors_kind c) k,
    countP_kind_uniform _ _ (sslErrors_kind fs c) k,
    countP_kind_uniform _ _ (customParameterErrors_kind c) k]

lemma validate_ok_iff_nil (fs : String → Bool) (c : AdvancedConnectionConfig) :
    validate_connection_config fs c = .ok () ↔ validationErrors fs c = [] := by
  simp only [validate_connection_config]
  split_ifs with h <;> simp [h]

/-- Claim C1 (amended). The validator returns Ok exactly when the amended field
rules hold (the rules of the claim, with "non-empty" read as "non-empty after
trimming whitespace" for host, database, username and custom-parameter keys);
otherwise it returns the whole accumulated error list, which contains exactly
one error of the corresponding variant per violation (per field rule violated,
per failing SSL path, per failing custom-parameter check), never stopping at
the first; an empty host yields InvalidHost and port 0 yields InvalidPort. -/
theorem c1_validator_amended (fs : String → Bool) (c : AdvancedConnectionConfig) :
    (validate_connection_config fs c = .ok () ↔ amendedFieldRulesHold fs c = true) ∧
    (amendedFieldRulesHold fs c = false →
      validate_connection_config fs c = .error (validationErrors fs c)) ∧
    ((validationErrors fs c).countP (fun e => kindOf e == 0) =
      if (trimStr c.host) = "" ∨ c.host.length > 255 then 1 else 0) ∧
    ((validationErrors fs c).countP (fun e => kindOf e == 1) =
      if c.port = 0 ∨ c.port > 65535 then 1 else 0) ∧
    ((validationErrors fs c).countP (fun e => kindOf e == 2) =
      if (trimStr c.database) = "" ∨ c.database.length > 63 then 1 else 0) ∧
    ((validationErrors fs c).countP (fun e => kindOf e == 3) =
      if (trimStr c.username) = "" ∨ c.username.length > 63 then 1 else 0) ∧
    ((validationErrors fs c).countP (fun e => kindOf e == 5) =
      (if c.connection_timeout = 0 ∨ c.connection_timeout > 300 then 1 else 0) +
      (if c.query_timeout = 0 ∨ c.query_timeout > 3600 then 1 else 0)) ∧
    ((validationErrors fs c).countP (fun e => kindOf e == 4) =
      sslViolation fs c.ssl_config.cert + sslViolation fs c.ssl_config.ssl_key +
      sslViolation fs c.ssl_config.ca) ∧
    ((validationErrors fs c).countP (fun e => kindOf e == 6) =
      (c.custom_parameters.map fun kv =>
        (if (trimStr kv.1) = "" then 1 else 0) +
        (if kv.2.length > 1024 then 1 else 0)).sum) ∧
    (c.host = "" →
      ConnectionValidationError.InvalidHost "Host cannot be empty" ∈
        validationErrors fs c) ∧
    (c.port = 0 →
      ConnectionValidationError.InvalidPort "Port must be between 1 and 65535" ∈
        validationErrors fs c) := by
  refine ⟨?_, ?_, ?_, ?_, ?_, ?_, ?_, ?_, ?_, ?_, ?_⟩
  · rw [validate_ok_iff_nil, validationErrors_nil_iff]
  · intro h
    have hne : validationErrors fs c ≠ [] := by
      intro hnil
      rw [(validationErrors_nil_iff fs c).mp hnil] at h
      exact Bool.noConfusion h
    simp only [validate_connection_config]
    rw [if_neg hne]
  · rw [validationErrors_countP]; simp [hostErrors_length]
  · rw [validationErrors_countP]; simp [portErrors_length]
  · rw [validationErrors_countP]; simp [databaseErrors_length]
  · rw [validationErrors_countP]; simp [usernameErrors_length]
  · rw [validationErrors_countP]; simp [timeoutErrors_length]
  · rw [validationErrors_countP]; simp [sslErrors_length]
  · rw [validationErrors_countP]; simp [customParameterErrors_length]
  · intro h
    have ht : trimStr c.host = "" := by rw [h]; rfl
    simp [validationErrors, List.mem_append, hostErrors, ht]
  · intro h
    simp [validationErrors, List.mem_append, portErrors, h]

/-- Claim C1 counterexample: a configuration whose host is a single space
satisfies every documented field rule as worded in the claim (the host is a
non-empty string of length at most 255), yet the source validator rejects it
with InvalidHost, because the source tests host.trim().is_empty(). -/
theorem c1_counterexample :
    specFieldRulesHold noFs blankHostConfig = true ∧
    validate_connection_config noFs blankHostConfig =
      .error [.InvalidHost "Host cannot be empty"] := by
  constructor
  · rfl
  · rfl

/-- Named boundary configuration: host of exactly 255 characters, port 1. -/
def boundaryConfig : AdvancedConnectionConfig :=
  { baseConfig with host := String.mk (List.replicate 255 'a'), port := 1 }

/-- Named boundary configuration with port 65535. -/
def maxPortConfig : AdvancedConnectionConfig := { baseConfig with port := 65535 }

/-- Named configuration with an empty host. -/
def emptyHostConfig : AdvancedConnectionConfig := { baseConfig with host := "" }

/-- Named configuration with port 0. -/
def zeroPortConfig : AdvancedConnectionConfig := { baseConfig with port := 0 }

set_option maxRecDepth 16384 in
/-- Witness for claim C1: the amended theorem applied at the boundary-valid
configurations (port 1 with a 255-character host, port 65535) and at the
empty-host and zero-port configurations. -/
theorem c1_validator_amended_witness :
    validate_connection_config noFs boundaryConfig = .ok () ∧
    validate_connection_config noFs maxPortConfig = .ok () ∧
    ConnectionValidationError.InvalidHost "Host cannot be empty" ∈
      validationErrors noFs emptyHostConfig ∧
    ConnectionValidationError.InvalidPort "Port must be between 1 and 65535" ∈
      validationErrors noFs zeroPortConfig := by
  refine ⟨(c1_validator_amended noFs boundaryConfig).1.mpr (by decide),
    (c1_validator_amended noFs maxPortConfig).1.mpr (by decide),
    (c1_validator_amended noFs emptyHostConfig).2.2.2.2.2.2.2.2.2.1 rfl,
    (c1_validator_amended noFs zeroPortConfig).2.2.2.2.2.2.2.2.2.2 rfl⟩

/-! ## Health tracker (connection_health_service.rs) -/

/-- Detailed connection information (struct ConnectionDetails). -/
structure ConnectionDetails where
  host : String
  port : Nat
  database : String
  username : String
  ssl_used : Bool
  server_encoding : Option String
  client_encoding : Option String
deriving DecidableEq, Repr

/-- Connection test result (struct ConnectionTestResult). -/
structure ConnectionTestResult where
  success : Bool
  response_time_ms : Option Nat
  error_message : Option String
  error_code : Option String
  server_version : Option String
  database_name : Option String
  connection_details : Option ConnectionDetails
  troubleshooting_hints : List String
deriving DecidableEq, Repr

/-- Map from profile id to its health history, the content of the
health_history field of ConnectionHealthService. -/
def HealthHistories : Type := String → Option (List HealthCheckResult)

/-- HealthCheckResult derived from a test result in test_profile_connection:
status is Healthy when success and Error otherwise. -/
def deriveHealth (r : ConnectionTestResult) (now : Int) : HealthCheckResult :=
  { timestamp := now
    status := if r.success then .Healthy else .Error
    response_time_ms := r.response_time_ms
    error_message := r.error_message }

/-- Trimming step of test_profile_connection: when the history exceeds 100
entries, drain the oldest entries from the front down to 100. -/
def trimHistory (l : List HealthCheckResult) : List HealthCheckResult :=
  if l.length > 100 then l.drop (l.length - 100) else l

/-- History update performed by test_profile_connection for one profile:
push the derived result, then trim to the last 100. -/
def recordHealth (history : List HealthCheckResult) (r : ConnectionTestResult)
    (now : Int) : List HealthCheckResult :=
  trimHistory (history ++ [deriveHealth r now])

/-- State change of the health_history map in test_profile_connection
(entry(profile.id).or_insert(Vec::new), push, trim). -/
def test_profile_connection_record (histories : HealthHistories)
    (profile_id : String) (r : ConnectionTestResult) (now : Int) :
    HealthHistories :=
  fun p =>
    if p = profile_id then some (recordHealth ((histories profile_id).getD []) r now)
    else histories p

/-- Repeated recording of test results (with their timestamps) against one
profile history, oldest first. -/
def recordMany (history : List HealthCheckResult)
    (rs : List (ConnectionTestResult × Int)) : List HealthCheckResult :=
  rs.foldl (fun h p => recordHealth h p.1 p.2) history

lemma trimHistory_eq_drop (l : List HealthCheckResult) :
    trimHistory l = l.drop (l.length - 100) := by
  unfold trimHistory
  split_ifs with h
  · rfl
  · have : l.length - 100 = 0 := by omega
    rw [this, List.drop_zero]

lemma trimHistory_length (l : List HealthCheckResult) :
    (trimHistory l).length = min l.length 100 := by
  rw [trimHistory_eq_drop, List.length_drop]
  omega

lemma recordHealth_length_le (h : List HealthCheckResult)
    (r : ConnectionTestResult) (t : Int) : (recordHealth h r t).length ≤ 100 := by
  unfold recordHealth
  rw [trimHistory_length]
  omega

lemma recordMany_drop (rs : List (ConnectionTestResult × Int)) :
    ∀ h : List HealthCheckResult, h.length ≤ 100 →
    recordMany h rs =
      (h ++ rs.map fun p => deriveHealth p.1 p.2).drop (h.length + rs.length - 100) := by
  induction rs with
  | nil =>
    intro h hle
    simp only [recordMany, List.foldl_nil, List.map_nil, List.append_nil,
      List.length_nil, Nat.add_zero]
    have h0 : h.length - 100 = 0 := by omega
    rw [h0, List.drop_zero]
  | cons p rs ih =>
    intro h hle
    have step : recordMany h (p :: rs) = recordMany (recordHealth h p.1 p.2) rs := by
      simp [recordMany]
    rcases Nat.lt_or_ge h.length 100 with hlt | hge
    · have hrec : recordHealth h p.1 p.2 = h ++ [deriveHealth p.1 p.2] := by
        unfold recordHealth trimHistory
        rw [if_neg]
        simp only [List.length_append, List.length_cons, List.length_nil]
        omega
      have hle2 : (h ++ [deriveHealth p.1 p.2]).length ≤ 100 := by
        simp only [List.length_append, List.length_cons, List.length_nil]
        omega
      rw [step, hrec, ih _ hle2]
      simp only [List.length_append, List.length_cons, List.length_nil,
        List.map_cons, List.append_assoc, List.singleton_append, List.nil_append]
      congr 1
      omega
    · have h100 : h.length = 100 := by omega
      obtain ⟨a, h2, rfl⟩ : ∃ a h2, h = a :: h2 := by
        cases h with
        | nil => simp at h100
        | cons a h2 => exact ⟨a, h2, rfl⟩
      simp only [List.length_cons] at h100
      have hrec : recordHealth (a :: h2) p.1 p.2 = h2 ++ [deriveHealth p.1 p.2] := by
        unfold recordHealth trimHistory
        rw [if_pos]
        · have hidx : (a :: h2 ++ [deriveHealth p.1 p.2]).length - 100 = 1 := by
            simp only [List.cons_append, List.length_cons, List.length_append,
              List.length_nil]
            omega
          rw [hidx]
          simp
        · simp only [List.cons_append, List.length_cons, List.length_append,
            List.length_nil]
          omega
      have hlen2 : (h2 ++ [deriveHealth p.1 p.2]).length = 100 := by
        simp only [List.length_append, List.length_cons, List.length_nil]
        omega
      rw [step, hrec, ih _ (le_of_eq hlen2), hlen2]
      have hidx1 : 100 + rs.length - 100 = rs.length := by omega
      have hidx2 : (a :: h2).length + (p :: rs).length - 100 = rs.length + 1 := by
        simp only [List.length_cons]
        omega
      rw [hidx1, hidx2]
      simp only [List.map_cons, List.cons_append, List.append_assoc,
        List.singleton_append, List.nil_append, List.drop_succ_cons]

/-- Claim C2. Recording a test result via test_profile_connection updates only
the given profile, appending exactly one derived HealthCheckResult whose status
is Healthy iff the result was a success (Error otherwise) and then trimming to
the most recent 100 entries by dropping the oldest; after the operation the
history never exceeds 100 entries; recording 101 results into an empty history
leaves exactly the most recent 100, the oldest dropped. -/
theorem c2_record_health (histories : HealthHistories) (profile_id : String)
    (r : ConnectionTestResult) (now : Int) :
    ((deriveHealth r now).status = .Healthy ↔ r.success = true) ∧
    (test_profile_connection_record histories profile_id r now profile_id =
      some (trimHistory (((histories profile_id).getD []) ++ [deriveHealth r now]))) ∧
    (∀ p, p ≠ profile_id →
      test_profile_connection_record histories profile_id r now p = histories p) ∧
    (∀ h, recordHealth h r now = (h ++ [deriveHealth r now]).drop
        ((h.length + 1) - 100)) ∧
    (∀ h, (recordHealth h r now).length ≤ 100) ∧
    (∀ rs : List (ConnectionTestResult × Int), rs.length = 101 →
      recordMany [] rs = (rs.map fun p => deriveHealth p.1 p.2).drop 1 ∧
      (recordMany [] rs).length = 100) := by
  refine ⟨?_, ?_, ?_, ?_, ?_, ?_⟩
  · unfold deriveHealth
    cases hr : r.success <;> simp [hr]
  · simp [test_profile_connection_record, recordHealth]
  · intro p hp
    simp [test_profile_connection_record, hp]
  · intro h
    rw [recordHealth, trimHistory_eq_drop]
    congr 1
    simp [List.length_append]
  · intro h
    exact recordHealth_length_le h r now
  · intro rs hrs
    have := recordMany_drop rs [] (by simp)
    simp only [List.length_nil, List.nil_append, Nat.zero_add, hrs] at this
    constructor
    · exact this
    · rw [this, List.length_drop, List.length_map, hrs]

/-- Concrete failed test result used in witnesses. -/
def failedResult : ConnectionTestResult :=
  { success := false, response_time_ms := some 5,
    error_message := some "connection refused", error_code := some "CONNECTION_REFUSED",
    server_version := none, database_name := some "test_db",
    connection_details := none, troubleshooting_hints := [] }

/-- Witness for claim C2: the theorem applied to an empty history map and a
concrete run of 101 identical results. -/
theorem c2_record_health_witness :
    (recordMany [] (List.replicate 101 (failedResult, (0 : Int)))).length = 100 ∧
    (recordMany [] (List.replicate 101 (failedResult, (0 : Int)))) =
      ((List.replicate 101 (failedResult, (0 : Int))).map
        (fun p => deriveHealth p.1 p.2)).drop 1 := by
  have h := (c2_record_health (fun _ => none) "p1" failedResult 0).2.2.2.2.2
    (List.replicate 101 (failedResult, (0 : Int))) (by simp)
  exact ⟨h.2, h.1⟩

/-! ## Claim C3: uptime calculation (calculate_uptime) -/

/-- Predicate of the source filter matches!(result.status, HealthStatus::Healthy). -/
def isHealthy (res : HealthCheckResult) : Bool :=
  match res.status with
  | .Healthy => true
  | _ => false

/-- Shallow embedding of calculate_uptime. Timestamps are integer seconds,
chrono Duration::hours(h) is 3600 * h seconds, and the f64 percentage is
modelled as a rational. The source keeps entries with timestamp strictly
greater than cutoff = now - hours and imposes no upper bound. -/
def calculate_uptime (histories : HealthHistories) (profile_id : String)
    (period_hours : Nat) (now : Int) : ℚ :=
  match histories profile_id with
  | some profile_history =>
    let cutoff : Int := now - 3600 * period_hours
    let recent := profile_history.filter fun res => cutoff < res.timestamp
    if recent.isEmpty then 0
    else
      ((recent.filter isHealthy).length : ℚ) / (recent.length : ℚ) * 100
  | none => 0

/-- Uptime as worded by claim C3: the percentage of retained entries whose
timestamp lies within the closed window from now - period_hours to now and
whose status is Healthy, over all entries in that window, 0 when the window
holds no entries. -/
def uptimeSpec (histories : HealthHistories) (profile_id : String)
    (period_hours : Nat) (now : Int) : ℚ :=
  let entries := (histories profile_id).getD []
  let window := entries.filter fun res =>
    now - 3600 * period_hours ≤ res.timestamp ∧ res.timestamp ≤ now
  if window.isEmpty then 0
  else ((window.filter isHealthy).length : ℚ) / (window.length : ℚ) * 100

/-- History map with one profile holding a Healthy entry exactly at the window
edge and an Error entry in the future of the query time. -/
def c3Histories : HealthHistories := fun p =>
  if p = "p1" then
    some [{ timestamp := 0, status := .Healthy, response_time_ms := some 10,
            error_message := none },
          { timestamp := 7200, status := .Error, response_time_ms := none,
            error_message := some "connection refused" }]
  else none

/-- Claim C3 counterexample: at now = 3600 with a one-hour window, the claimed
closed window [now - 3600, now] holds exactly the Healthy entry at timestamp 0,
so the claim demands 100 percent; the source excludes the boundary entry
(strict comparison) and includes the future entry at 7200 (no upper bound),
returning 0. -/
theorem c3_counterexample :
    uptimeSpec c3Histories "p1" 1 3600 = 100 ∧
    calculate_uptime c3Histories "p1" 1 3600 = 0 := by
  constructor
  · norm_num [uptimeSpec, c3Histories, List.filter, isHealthy]
  · norm_num [calculate_uptime, c3Histories, List.filter, isHealthy]

/-- Claim C3 (amended). calculate_uptime returns the percentage of retained
entries whose timestamp is strictly later than now - period_hours (the source
imposes no upper bound at now) and whose status is Healthy, over all such
entries; it returns exactly 0 when that set is empty or the profile is
unknown, the denominator is nonzero whenever a division happens, and the
result always lies between 0 and 100 (in particular it is a well-defined
rational, never NaN). -/
theorem c3_uptime_amended (histories : HealthHistories) (profile_id : String)
    (period_hours : Nat) (now : Int) :
    (histories profile_id = none →
      calculate_uptime histories profile_id period_hours now = 0) ∧
    (∀ h, histories profile_id = some h →
      h.filter (fun res => now - 3600 * period_hours < res.timestamp) = [] →
      calculate_uptime histories profile_id period_hours now = 0) ∧
    (∀ h, histories profile_id = some h →
      h.filter (fun res => now - 3600 * period_hours < res.timestamp) ≠ [] →
      (((h.filter fun res => now - 3600 * period_hours < res.timestamp).length : ℚ) ≠ 0 ∧
       calculate_uptime histories profile_id period_hours now =
        (((h.filter fun res => now - 3600 * period_hours < res.timestamp).filter
            isHealthy).length : ℚ) /
          ((h.filter fun res => now - 3600 * period_hours < res.timestamp).length : ℚ)
          * 100)) ∧
    (0 ≤ calculate_uptime histories profile_id period_hours now ∧
     calculate_uptime histories profile_id period_hours now ≤ 100) := by
  refine ⟨?_, ?_, ?_, ?_⟩
  · intro hnone
    unfold calculate_uptime
    rw [hnone]
  · intro h hsome hnil
    unfold calculate_uptime
    rw [hsome]
    simp [hnil]
  · intro h hsome hne
    have hlen : (h.filter fun res => now - 3600 * period_hours < res.timestamp).length ≠ 0 := by
      intro h0
      exact hne (List.length_eq_zero.mp h0)
    refine ⟨by exact_mod_cast hlen, ?_⟩
    have hval : calculate_uptime histories profile_id period_hours now =
        if (h.filter fun res => now - 3600 * period_hours < res.timestamp).isEmpty
        then 0
        else (((h.filter fun res => now - 3600 * period_hours <
            res.timestamp).filter isHealthy).length : ℚ) /
          ((h.filter fun res => now - 3600 * period_hours < res.timestamp).length : ℚ)
          * 100 := by
      unfold calculate_uptime
      rw [hsome]
    rw [hval, if_neg (by simpa [List.isEmpty_iff] using hne)]
  · unfold calculate_uptime
    cases hh : histories profile_id with
    | none => simp
    | some h =>
      simp only []
      split_ifs with hemp
      · simp
      · have hne : (h.filter fun res => now - 3600 * period_hours < res.timestamp) ≠ [] := by
          intro h0
          rw [List.isEmpty_iff] at hemp
          exact hemp h0
        have hpos : (0 : ℚ) <
            ((h.filter fun res => now - 3600 * period_hours < res.timestamp).length : ℚ) := by
          have : 0 < (h.filter fun res => now - 3600 * period_hours < res.timestamp).length :=
            List.length_pos.mpr hne
          exact_mod_cast this
        have hle : (((h.filter fun res => now - 3600 * period_hours <
            res.timestamp).filter isHealthy).length : ℚ) ≤
            ((h.filter fun res => now - 3600 * period_hours < res.timestamp).length : ℚ) := by
          exact_mod_cast List.length_filter_le _ _
        constructor
        · apply mul_nonneg
          · exact div_nonneg (by positivity) (le_of_lt hpos)
          · norm_num
        · have hdiv : (((h.filter fun res => now - 3600 * period_hours <
              res.timestamp).filter isHealthy).length : ℚ) /
              ((h.filter fun res => now - 3600 * period_hours < res.timestamp).length : ℚ)
              ≤ 1 := (div_le_one hpos).mpr hle
          calc _ ≤ (1 : ℚ) * 100 := by
                apply mul_le_mul_of_nonneg_right hdiv
                norm_num
            _ = 100 := by norm_num

/-- Witness for claim C3: the amended theorem applied at a concrete unknown
profile (uptime exactly 0) and at the concrete profile of c3Histories
(result within bounds). -/
theorem c3_uptime_amended_witness :
    calculate_uptime c3Histories "missing" 1 3600 = 0 ∧
    0 ≤ calculate_uptime c3Histories "p1" 1 3600 ∧
    calculate_uptime c3Histories "p1" 1 3600 ≤ 100 := by
  refine ⟨(c3_uptime_amended c3Histories "missing" 1 3600).1 rfl,
    (c3_uptime_amended c3Histories "p1" 1 3600).2.2.2.1,
    (c3_uptime_amended c3Histories "p1" 1 3600).2.2.2.2⟩

/-! ## Connection tester (connection_health_service.rs, test_connection) -/

/-- Connection test options (struct ConnectionTestOptions). -/
structure ConnectionTestOptions where
  timeout_seconds : Option Nat
  retry_attempts : Option Nat
  retry_delay_ms : Option Nat
  validate_ssl : Bool
  check_permissions : Bool
  test_query : Option String
deriving DecidableEq, Repr

/-- Default options (impl Default for ConnectionTestOptions). -/
def defaultOptions : ConnectionTestOptions :=
  { timeout_seconds := some 30, retry_attempts := some 3,
    retry_delay_ms := some 1000, validate_ssl := true,
    check_permissions := false, test_query := some "SELECT 1" }

/-- Result of a successful connection attempt (struct ConnectionSuccessResult). -/
structure ConnectionSuccessResult where
  server_version : Option String
  connection_details : ConnectionDetails
deriving DecidableEq, Repr

/-- Environment of one connection attempt, modelling the tokio_postgres driver
and the wall clock: how many seconds the connect future runs, its outcome when
it completes, how many seconds the probe query runs, and the version answer. -/
structure AttemptEnv where
  connect_seconds : Nat
  connect_result : Except String Unit
  query_seconds : Nat
  server_version : Option String
deriving Repr

/-- Timeout of one attempt as computed by attempt_connection:
options.timeout_seconds.unwrap_or(config.connection_timeout) - the option
value when set, otherwise the config value (not their minimum). -/
def effectiveTimeout (options : ConnectionTestOptions)
    (config : AdvancedConnectionConfig) : Nat :=
  options.timeout_seconds.getD config.connection_timeout

/-- Shallow embedding of attempt_connection: the connect is bounded by
effectiveTimeout and fails as "Connection timed out" past it; a completed
connect propagates the driver error; on success, when test_query is set the
probe query is bounded by a fixed 10 seconds and fails as "Test query timed
out" past it (the query result itself is ignored by the source, which only
checks the timeout wrapper); the success data echoes the config with
ssl_used false. -/
def attempt_connection (config : AdvancedConnectionConfig)
    (options : ConnectionTestOptions) (env : AttemptEnv) :
    Except String ConnectionSuccessResult :=
  let timeout := effectiveTimeout options config
  if timeout < env.connect_seconds then .error "Connection timed out"
  else
    match env.connect_result with
    | .error e => .error e
    | .ok _ =>
      let proceed : Except String ConnectionSuccessResult :=
        .ok { server_version := env.server_version,
              connection_details :=
                { host := config.host, port := config.port,
                  database := config.database, username := config.username,
                  ssl_used := false, server_encoding := none,
                  client_encoding := none } }
      match options.test_query with
      | some _ =>
        if 10 < env.query_seconds then .error "Test query timed out"
        else proceed
      | none => proceed

/-- Exit state of the retry loop of test_connection. -/
inductive LoopExit where
  | success (r : ConnectionSuccessResult) (attempt : Nat)
  | failure (e : String) (attempt : Nat)
  | noAttempt
deriving DecidableEq, Repr

/-- Retry loop of test_connection (for attempt in 1..=retry_attempts), with
the outcome of attempt i given by conn i: the first Ok returns at attempt i;
an Err sleeps retry_delay and continues while attempt < retry_attempts, else
fails with the last error; with 0 retry attempts the body never runs. The
returned list collects the sleep durations performed, in order. -/
def retryGo (conn : Nat → Except String ConnectionSuccessResult) (delay : Nat)
    (i : Nat) : Nat → LoopExit × List Nat
  | 0 => (.noAttempt, [])
  | remaining + 1 =>
    match conn i with
    | .ok r => (.success r i, [])
    | .error e =>
      if remaining = 0 then (.failure e i, [])
      else
        let next := retryGo conn delay (i + 1) remaining
        (next.1, delay :: next.2)

/-- Retry loop entered at attempt 1. -/
def retryLoop (conn : Nat → Except String ConnectionSuccessResult)
    (retry_attempts delay : Nat) : LoopExit × List Nat :=
  retryGo conn delay 1 retry_attempts

/-- Lower-cased substring test (str::contains on the lower-cased error text). -/
def strContains (hay needle : String) : Bool :=
  decide (needle.data <:+: hay.data)

/-- Lower-casing, modelling str::to_lowercase on ASCII text. -/
def lowerStr (s : String) : String := String.mk (s.data.map Char.toLower)

/-- Shallow embedding of analyze_connection_error: first matching category of
the lower-cased error text wins, each with its fixed hints. -/
def analyze_connection_error (error : String) : String × List String :=
  let s := lowerStr error
  if strContains s "connection refused" then
    ("CONNECTION_REFUSED",
     ["Check if PostgreSQL server is running",
      "Verify the host and port are correct",
      "Check firewall settings"])
  else if strContains s "timeout" || strContains s "timed out" then
    ("CONNECTION_TIMEOUT",
     ["Increase connection timeout value",
      "Check network connectivity",
      "Verify server is not overloaded"])
  else if strContains s "authentication failed" || strContains s "password" then
    ("AUTHENTICATION_FAILED",
     ["Verify username and password are correct",
      "Check if user has permission to connect",
      "Verify authentication method (md5, scram-sha-256, etc.)"])
  else if strContains s "database" && strContains s "does not exist" then
    ("DATABASE_NOT_FOUND",
     ["Check if the database name is correct",
      "Verify the database exists on the server",
      "Check if you have permission to access this database"])
  else if strContains s "ssl" then
    ("SSL_ERROR",
     ["Check SSL configuration settings",
      "Verify SSL certificates are valid and accessible",
      "Try different SSL modes (disable, prefer, require)"])
  else if strContains s "host" || strContains s "resolve" then
    ("HOST_RESOLUTION_ERROR",
     ["Check if the hostname is correct",
      "Try using IP address instead of hostname",
      "Check DNS resolution"])
  else
    ("UNKNOWN_ERROR",
     ["Check server logs for more details",
      "Verify all connection parameters",
      "Try connecting with a different client to isolate the issue"])

/-- Hint of generate_validation_hints for one validation error. -/
def validationHint : ConnectionValidationError → String
  | .InvalidHost _ => "Provide a valid hostname or IP address"
  | .InvalidPort _ => "Use a valid port number (typically 5432 for PostgreSQL)"
  | .InvalidDatabase _ => "Provide a valid database name"
  | .InvalidUsername _ => "Provide a valid username"
  | .InvalidSSLConfig _ => "Check SSL certificate file paths and permissions"
  | .InvalidTimeout _ =>
    "Use reasonable timeout values (30 seconds for connection, 5 minutes for queries)"
  | .InvalidCustomParameter _ _ => "Check custom parameter names and values"

/-- Shallow embedding of generate_validation_hints: one hint pushed per error
in the list, in order. -/
def generate_validation_hints (errors : List ConnectionValidationError) :
    List String :=
  errors.map validationHint

/-- Full outcome of one test_connection call: the returned result, the number
of attempt_connection calls made, and the sleeps performed. -/
structure TestOutcome where
  result : ConnectionTestResult
  attempts_made : Nat
  sleeps : List Nat
deriving DecidableEq, Repr

/-- Shallow embedding of test_connection. The password only feeds the
connection string consumed by the driver, which the attempt oracle conn
models, so it does not appear; elapsed_ms models start_time.elapsed(). -/
def test_connection (fs : String → Bool) (config : AdvancedConnectionConfig)
    (options : Option ConnectionTestOptions)
    (conn : Nat → Except String ConnectionSuccessResult)
    (elapsed_ms : Nat) : TestOutcome :=
  let options := options.getD defaultOptions
  match validate_connection_config fs config with
  | .error validation_errors =>
    { result :=
        { success := false, response_time_ms := some elapsed_ms,
          error_message := some ("Configuration validation failed: " ++
            reprStr validation_errors),
          error_code := some "VALIDATION_ERROR", server_version := none,
          database_name := none, connection_details := none,
          troubleshooting_hints := generate_validation_hints validation_errors },
      attempts_made := 0, sleeps := [] }
  | .ok _ =>
    let retry_attempts := options.retry_attempts.getD 3
    let retry_delay := options.retry_delay_ms.getD 1000
    match retryLoop conn retry_attempts retry_delay with
    | (.success r i, sleeps) =>
      { result :=
          { success := true, response_time_ms := some elapsed_ms,
            error_message := none, error_code := none,
            server_version := r.server_version,
            database_name := some config.database,
            connection_details := some r.connection_details,
            troubleshooting_hints := [] },
        attempts_made := i, sleeps := sleeps }
    | (.failure e i, sleeps) =>
      { result :=
          { success := false, response_time_ms := some elapsed_ms,
            error_message := some e,
            error_code := some (analyze_connection_error e).1,
            server_version := none, database_name := some config.database,
            connection_details := none,
            troubleshooting_hints := (analyze_connection_error e).2 },
        attempts_made := i, sleeps := sleeps }
    | (.noAttempt, sleeps) =>
      { result :=
          { success := false, response_time_ms := some elapsed_ms,
            error_message := some "Unknown error occurred",
            error_code := some "UNKNOWN_ERROR", server_version := none,
            database_name := none, connection_details := none,
            troubleshooting_hints :=
              ["Please check your connection parameters and try again."] },
        attempts_made := 0, sleeps := sleeps }

lemma retryGo_zero (conn : Nat → Except String ConnectionSuccessResult)
    (d i : Nat) : retryGo conn d i 0 = (.noAttempt, []) := rfl

lemma retryGo_succ (conn : Nat → Except String ConnectionSuccessResult)
    (d i rem : Nat) :
    retryGo conn d i (rem + 1) =
      match conn i with
      | .ok r => (.success r i, [])
      | .error e =>
        if rem = 0 then (.failure e i, [])
        else ((retryGo conn d (i + 1) rem).1, d :: (retryGo conn d (i + 1) rem).2) := by
  rfl

lemma retryGo_all_fail (conn : Nat → Except String ConnectionSuccessResult)
    (d : Nat) :
    ∀ rem i, (∀ j, i ≤ j → j ≤ i + rem → ∃ e, conn j = .error e) →
    ∃ e, conn (i + rem) = .error e ∧
      retryGo conn d i (rem + 1) = (.failure e (i + rem), List.replicate rem d) := by
  intro rem
  induction rem with
  | zero =>
    intro i hall
    obtain ⟨e, he⟩ := hall i (le_refl i) (by omega)
    refine ⟨e, by simpa using he, ?_⟩
    simp [retryGo, show conn i = .error e from he]
  | succ rem ih =>
    intro i hall
    obtain ⟨e, he⟩ := hall i (le_refl i) (by omega)
    obtain ⟨e2, he2, hrec⟩ := ih (i + 1)
      (fun j hj1 hj2 => hall j (by omega) (by omega))
    have hidx : i + 1 + rem = i + (rem + 1) := by omega
    rw [hidx] at he2 hrec
    refine ⟨e2, he2, ?_⟩
    rw [retryGo_succ, he]
    dsimp only
    rw [if_neg (Nat.succ_ne_zero rem), hrec]
    simp [List.replicate_succ]

lemma retryGo_success (conn : Nat → Except String ConnectionSuccessResult)
    (d : Nat) (r : ConnectionSuccessResult) :
    ∀ k i fuel, k < fuel → conn (i + k) = .ok r →
    (∀ j, i ≤ j → j < i + k → ∃ e, conn j = .error e) →
    retryGo conn d i fuel = (.success r (i + k), List.replicate k d) := by
  intro k
  induction k with
  | zero =>
    intro i fuel hf hok _
    obtain ⟨f, rfl⟩ : ∃ f, fuel = f + 1 := by
      cases fuel with
      | zero => omega
      | succ f => exact ⟨f, rfl⟩
    simp only [Nat.add_zero] at hok
    simp [retryGo, hok]
  | succ k ih =>
    intro i fuel hf hok hall
    obtain ⟨f, rfl⟩ : ∃ f, fuel = f + 1 := by
      cases fuel with
      | zero => omega
      | succ f => exact ⟨f, rfl⟩
    obtain ⟨e, he⟩ := hall i (le_refl i) (by omega)
    have hrec := ih (i + 1) f (by omega)
      (by rw [show i + 1 + k = i + (k + 1) by omega]; exact hok)
      (fun j hj1 hj2 => hall j (by omega) (by omega))
    rw [show i + 1 + k = i + (k + 1) by omega] at hrec
    rw [retryGo_succ, he]
    dsimp only
    rw [if_neg (by omega), hrec]
    simp [List.replicate_succ]

lemma validate_error_elim (fs : String → Bool) (config : AdvancedConnectionConfig)
    (es : List ConnectionValidationError)
    (hv : validate_connection_config fs config = .error es) :
    es = validationErrors fs config ∧ es ≠ [] := by
  unfold validate_connection_config at hv
  by_cases h : validationErrors fs config = []
  · simp [h] at hv
  · rw [if_neg h] at hv
    injection hv with hv
    exact ⟨hv.symm, hv ▸ h⟩

lemma test_connection_validation_case (fs : String → Bool)
    (config : AdvancedConnectionConfig) (options : ConnectionTestOptions)
    (conn : Nat → Except String ConnectionSuccessResult) (elapsed_ms : Nat)
    (es : List ConnectionValidationError)
    (hv : validate_connection_config fs config = .error es) :
    test_connection fs config (some options) conn elapsed_ms =
      { result :=
          { success := false, response_time_ms := some elapsed_ms,
            error_message := some ("Configuration validation failed: " ++ reprStr es),
            error_code := some "VALIDATION_ERROR", server_version := none,
            database_name := none, connection_details := none,
            troubleshooting_hints := generate_validation_hints es },
        attempts_made := 0, sleeps := [] } := by
  simp only [test_connection, Option.getD_some]
  rw [hv]

lemma test_connection_success_case (fs : String → Bool)
    (config : AdvancedConnectionConfig) (options : ConnectionTestOptions)
    (conn : Nat → Except String ConnectionSuccessResult) (elapsed_ms : Nat)
    (r : ConnectionSuccessResult) (i : Nat) (sleeps : List Nat)
    (hv : validate_connection_config fs config = .ok ())
    (hloop : retryLoop conn (options.retry_attempts.getD 3)
      (options.retry_delay_ms.getD 1000) = (.success r i, sleeps)) :
    test_connection fs config (some options) conn elapsed_ms =
      { result :=
          { success := true, response_time_ms := some elapsed_ms,
            error_message := none, error_code := none,
            server_version := r.server_version,
            database_name := some config.database,
            connection_details := some r.connection_details,
            troubleshooting_hints := [] },
        attempts_made := i, sleeps := sleeps } := by
  simp only [test_connection, Option.getD_some]
  rw [hv, hloop]

lemma test_connection_failure_case (fs : String → Bool)
    (config : AdvancedConnectionConfig) (options : ConnectionTestOptions)
    (conn : Nat → Except String ConnectionSuccessResult) (elapsed_ms : Nat)
    (e : String) (i : Nat) (sleeps : List Nat)
    (hv : validate_connection_config fs config = .ok ())
    (hloop : retryLoop conn (options.retry_attempts.getD 3)
      (options.retry_delay_ms.getD 1000) = (.failure e i, sleeps)) :
    test_connection fs config (some options) conn elapsed_ms =
      { result :=
          { success := false, response_time_ms := some elapsed_ms,
            error_message := some e,
            error_code := some (analyze_connection_error e).1,
            server_version := none, database_name := some config.database,
            connection_details := none,
            troubleshooting_hints := (analyze_connection_error e).2 },
        attempts_made := i, sleeps := sleeps } := by
  simp only [test_connection, Option.getD_some]
  rw [hv, hloop]

lemma test_connection_noAttempt_case (fs : String → Bool)
    (config : AdvancedConnectionConfig) (options : ConnectionTestOptions)
    (conn : Nat → Except String ConnectionSuccessResult) (elapsed_ms : Nat)
    (sleeps : List Nat)
    (hv : validate_connection_config fs config = .ok ())
    (hloop : retryLoop conn (options.retry_attempts.getD 3)
      (options.retry_delay_ms.getD 1000) = (.noAttempt, sleeps)) :
    test_connection fs config (some options) conn elapsed_ms =
      { result :=
          { success := false, response_time_ms := some elapsed_ms,
            error_message := some "Unknown error occurred",
            error_code := some "UNKNOWN_ERROR", server_version := none,
            database_name := none, connection_details := none,
            troubleshooting_hints :=
              ["Please check your connection parameters and try again."] },
        attempts_made := 0, sleeps := sleeps } := by
  simp only [test_connection, Option.getD_some]
  rw [hv, hloop]

/-- Claim C4. For a config that passes validation, with retry_attempts = n at
least 1 and retry_delay_ms = d set: the first successful attempt k
short-circuits with success true after exactly k attempts and k - 1 sleeps of
the fixed delay d (no backoff growth); if every attempt up to n fails, exactly
n attempts occur, the result has success false and carries the last error
message, after n - 1 fixed-delay sleeps. -/
theorem c4_retry_behavior (fs : String → Bool) (config : AdvancedConnectionConfig)
    (options : ConnectionTestOptions)
    (conn : Nat → Except String ConnectionSuccessResult)
    (elapsed_ms n d : Nat)
    (hv : validate_connection_config fs config = .ok ())
    (hn : options.retry_attempts = some n)
    (hd : options.retry_delay_ms = some d)
    (h1 : 1 ≤ n) :
    (∀ k r, 1 ≤ k → k ≤ n → conn k = .ok r →
      (∀ j, 1 ≤ j → j < k → ∃ e, conn j = .error e) →
      (test_connection fs config (some options) conn elapsed_ms).result.success = true ∧
      (test_connection fs config (some options) conn elapsed_ms).attempts_made = k ∧
      (test_connection fs config (some options) conn elapsed_ms).sleeps =
        List.replicate (k - 1) d) ∧
    ((∀ j, 1 ≤ j → j ≤ n → ∃ e, conn j = .error e) →
      ∃ e, conn n = .error e ∧
      (test_connection fs config (some options) conn elapsed_ms).result.success = false ∧
      (test_connection fs config (some options) conn elapsed_ms).result.error_message =
        some e ∧
      (test_connection fs config (some options) conn elapsed_ms).attempts_made = n ∧
      (test_connection fs config (some options) conn elapsed_ms).sleeps =
        List.replicate (n - 1) d) := by
  constructor
  · intro k r hk1 hkn hok hfail
    have hloop : retryLoop conn n d = (.success r k, List.replicate (k - 1) d) := by
      have := retryGo_success conn d r (k - 1) 1 n (by omega)
        (by rw [show 1 + (k - 1) = k by omega]; exact hok)
        (fun j hj1 hj2 => hfail j hj1 (by omega))
      rw [show 1 + (k - 1) = k by omega] at this
      exact this
    have hout := test_connection_success_case fs config options conn elapsed_ms
      r k (List.replicate (k - 1) d) hv (by rw [hn, hd]; exact hloop)
    rw [hout]
    exact ⟨rfl, rfl, rfl⟩
  · intro hall
    obtain ⟨e, he, hloop⟩ := retryGo_all_fail conn d (n - 1) 1
      (fun j hj1 hj2 => hall j hj1 (by omega))
    rw [show 1 + (n - 1) = n by omega] at he hloop
    rw [show n - 1 + 1 = n by omega] at hloop
    have hout := test_connection_failure_case fs config options conn elapsed_ms
      e n (List.replicate (n - 1) d) hv (by rw [hn, hd]; exact hloop)
    rw [hout]
    exact ⟨e, he, rfl, rfl, rfl, rfl⟩

/-- Mock successful connection data used by the tester witnesses. -/
def mockSuccess : ConnectionSuccessResult :=
  { server_version := some "PostgreSQL 16.0",
    connection_details :=
      { host := "localhost", port := 5432, database := "test_db",
        username := "test_user", ssl_used := false, server_encoding := none,
        client_encoding := none } }

/-- Mock connector that fails on attempts 1 and 2 and succeeds afterwards. -/
def failTwiceConn : Nat → Except String ConnectionSuccessResult :=
  fun i => if i ≤ 2 then .error "connection refused" else .ok mockSuccess

/-- Mock connector that always fails. -/
def alwaysFailConn : Nat → Except String ConnectionSuccessResult :=
  fun _ => .error "connection refused"

/-- Witness for claim C4: with the default options (3 attempts), the
fail-twice-then-succeed connector yields success after exactly 3 attempts and
the always-failing connector yields failure after exactly 3 attempts. -/
theorem c4_retry_behavior_witness :
    (test_connection noFs baseConfig (some defaultOptions) failTwiceConn 5).result.success
      = true ∧
    (test_connection noFs baseConfig (some defaultOptions) failTwiceConn 5).attempts_made
      = 3 ∧
    (test_connection noFs baseConfig (some defaultOptions) alwaysFailConn 5).result.success
      = false ∧
    (test_connection noFs baseConfig (some defaultOptions) alwaysFailConn 5).attempts_made
      = 3 := by
  have hv : validate_connection_config noFs baseConfig = .ok () := rfl
  have hgood := (c4_retry_behavior noFs baseConfig defaultOptions failTwiceConn
      5 3 1000 hv rfl rfl (by omega)).1 3 mockSuccess (by omega) (le_refl 3) rfl
    (by
      intro j hj1 hj2
      exact ⟨"connection refused", by
        unfold failTwiceConn
        rw [if_pos (by omega)]⟩)
  have hbad := (c4_retry_behavior noFs baseConfig defaultOptions alwaysFailConn
      5 3 1000 hv rfl rfl (by omega)).2 (fun j _ _ => ⟨"connection refused", rfl⟩)
  obtain ⟨e, _, hsf, _, hat, _⟩ := hbad
  exact ⟨hgood.1, hgood.2.1, hsf, hat⟩

/-- Options whose timeout_seconds is 500, larger than the config timeout. -/
def c5options : ConnectionTestOptions :=
  { defaultOptions with timeout_seconds := some 500 }

/-- Config whose own connection timeout is 10 seconds. -/
def c5config : AdvancedConnectionConfig :=
  { baseConfig with connection_timeout := 10 }

/-- Attempt environment whose connect takes 100 seconds and then succeeds. -/
def c5env : AttemptEnv :=
  { connect_seconds := 100, connect_result := .ok (), query_seconds := 0,
    server_version := none }

/-- Claim C5 counterexample: with timeout_seconds = 500 set and a config
connection timeout of 10, an attempt whose connect runs 100 seconds - far past
the claimed bound min(500, 10) = 10 - is not abandoned as a timeout: the
source bounds the attempt by the option value alone (unwrap_or), so the
attempt succeeds. -/
theorem c5_counterexample :
    min 500 c5config.connection_timeout = 10 ∧
    c5env.connect_seconds > min 500 c5config.connection_timeout ∧
    c5options.timeout_seconds = some 500 ∧
    attempt_connection c5config c5options c5env =
      .ok { server_version := none,
            connection_details :=
              { host := "localhost", port := 5432, database := "test_db",
                username := "test_user", ssl_used := false,
                server_encoding := none, client_encoding := none } } := by
  refine ⟨rfl, by decide, rfl, rfl⟩

/-- Claim C5 (amended). Each attempt is bounded by the options' timeout_seconds
when set - regardless of the config's own connection timeout - and by the
config's connection timeout only when the option is unset
(timeout_seconds.unwrap_or(config.connection_timeout)); when the bound is
exceeded the attempt fails as the timeout error rather than hanging. -/
theorem c5_attempt_timeout_amended (config : AdvancedConnectionConfig)
    (options : ConnectionTestOptions) (env : AttemptEnv) :
    effectiveTimeout options config =
      options.timeout_seconds.getD config.connection_timeout ∧
    (∀ t, options.timeout_seconds = some t → effectiveTimeout options config = t) ∧
    (options.timeout_seconds = none →
      effectiveTimeout options config = config.connection_timeout) ∧
    (effectiveTimeout options config < env.connect_seconds →
      attempt_connection config options env = .error "Connection timed out") := by
  refine ⟨rfl, ?_, ?_, ?_⟩
  · intro t ht
    simp [effectiveTimeout, ht]
  · intro ht
    simp [effectiveTimeout, ht]
  · intro hlt
    simp only [attempt_connection]
    rw [if_pos hlt]

/-- Attempt environment whose connect runs 31 seconds, past the 30-second
default option bound. -/
def slowEnv : AttemptEnv :=
  { connect_seconds := 31, connect_result := .ok (), query_seconds := 0,
    server_version := none }

/-- Witness for claim C5: a 31-second connect under the default 30-second
option bound fails as a timeout, and the effective bound with
timeout_seconds = 500 is 500. -/
theorem c5_attempt_timeout_amended_witness :
    attempt_connection baseConfig defaultOptions slowEnv =
      .error "Connection timed out" ∧
    effectiveTimeout c5options c5config = 500 := by
  exact ⟨(c5_attempt_timeout_amended baseConfig defaultOptions slowEnv).2.2.2
      (by decide),
    (c5_attempt_timeout_amended c5config c5options slowEnv).2.1 500 rfl⟩

/-- Config whose connection and query timeouts are both 0: two violations of
the same kind (InvalidTimeout). -/
def doubleTimeoutConfig : AdvancedConnectionConfig :=
  { baseConfig with connection_timeout := 0, query_timeout := 0 }

/-- Claim C6 counterexample: a config violating both timeout rules yields two
validation errors of the single distinct kind InvalidTimeout, and
test_connection returns two identical timeout hints - one per violation
occurrence, not one per distinct violation kind as the claim states. -/
theorem c6_counterexample :
    (validationErrors noFs doubleTimeoutConfig).map kindOf = [5, 5] ∧
    (test_connection noFs doubleTimeoutConfig (some defaultOptions)
        alwaysFailConn 0).result.troubleshooting_hints =
      ["Use reasonable timeout values (30 seconds for connection, 5 minutes for queries)",
       "Use reasonable timeout values (30 seconds for connection, 5 minutes for queries)"] := by
  exact ⟨rfl, rfl⟩

/-- Claim C6 (amended). On a config the validator rejects, test_connection
returns immediately with success false and error_code VALIDATION_ERROR, makes
zero connection attempts and zero sleeps, and returns one troubleshooting hint
per violation occurrence, in order (the hint of each error's variant), so
hints may repeat when several violations share a kind. -/
theorem c6_validation_error_path (fs : String → Bool)
    (config : AdvancedConnectionConfig) (options : ConnectionTestOptions)
    (conn : Nat → Except String ConnectionSuccessResult) (elapsed_ms : Nat)
    (es : List ConnectionValidationError)
    (hv : validate_connection_config fs config = .error es) :
    (test_connection fs config (some options) conn elapsed_ms).result.success = false ∧
    (test_connection fs config (some options) conn elapsed_ms).result.error_code =
      some "VALIDATION_ERROR" ∧
    (test_connection fs config (some options) conn elapsed_ms).attempts_made = 0 ∧
    (test_connection fs config (some options) conn elapsed_ms).sleeps = [] ∧
    (test_connection fs config (some options) conn elapsed_ms).result.troubleshooting_hints =
      es.map validationHint ∧
    es ≠ [] := by
  have hout := test_connection_validation_case fs config options conn elapsed_ms es hv
  rw [hout]
  exact ⟨rfl, rfl, rfl, rfl, rfl, (validate_error_elim fs config es hv).2⟩

/-- Witness for claim C6: the amended theorem applied to the end-to-end
scenario config (empty host, port 0, empty database, username "u"), whose
validator output is the three-error list, with a call-counting connector shown
never to run (zero attempts). -/
theorem c6_validation_error_path_witness :
    (test_connection noFs
        { baseConfig with host := "", port := 0, database := "" }
        (some defaultOptions) alwaysFailConn 0).result.success = false ∧
    (test_connection noFs
        { baseConfig with host := "", port := 0, database := "" }
        (some defaultOptions) alwaysFailConn 0).result.error_code =
      some "VALIDATION_ERROR" ∧
    (test_connection noFs
        { baseConfig with host := "", port := 0, database := "" }
        (some defaultOptions) alwaysFailConn 0).attempts_made = 0 := by
  have h := c6_validation_error_path noFs
    { baseConfig with host := "", port := 0, database := "" }
    defaultOptions alwaysFailConn 0
    [.InvalidHost "Host cannot be empty",
     .InvalidPort "Port must be between 1 and 65535",
     .InvalidDatabase "Database name cannot be empty"] rfl
  exact ⟨h.1, h.2.1, h.2.2.1⟩

/-- Claim C10. When validation passes and retry_attempts is Some(0), the retry
loop body never runs: zero attempts are made, and the fallback result after
the loop is returned - success false, error_code UNKNOWN_ERROR, error_message
"Unknown error occurred", and exactly the one generic hint - distinct from
both the validation-failure result and any classified connection failure. -/
theorem c10_zero_retry_attempts (fs : String → Bool)
    (config : AdvancedConnectionConfig) (options : ConnectionTestOptions)
    (conn : Nat → Except String ConnectionSuccessResult) (elapsed_ms : Nat)
    (hv : validate_connection_config fs config = .ok ())
    (hn : options.retry_attempts = some 0) :
    test_connection fs config (some options) conn elapsed_ms =
      { result :=
          { success := false, response_time_ms := some elapsed_ms,
            error_message := some "Unknown error occurred",
            error_code := some "UNKNOWN_ERROR", server_version := none,
            database_name := none, connection_details := none,
            troubleshooting_hints :=
              ["Please check your connection parameters and try again."] },
        attempts_made := 0, sleeps := [] } := by
  exact test_connection_noAttempt_case fs config options conn elapsed_ms [] hv
    (by rw [hn]; rfl)

/-- Options requesting zero retry attempts. -/
def zeroRetryOptions : ConnectionTestOptions :=
  { defaultOptions with retry_attempts := some 0 }

/-- Witness for claim C10: the theorem applied at a concrete valid config with
zero retry attempts and an always-failing connector. -/
theorem c10_zero_retry_attempts_witness :
    test_connection noFs baseConfig (some zeroRetryOptions) alwaysFailConn 9 =
      { result :=
          { success := false, response_time_ms := some 9,
            error_message := some "Unknown error occurred",
            error_code := some "UNKNOWN_ERROR", server_version := none,
            database_name := none, connection_details := none,
            troubleshooting_hints :=
              ["Please check your connection parameters and try again."] },
        attempts_made := 0, sleeps := [] } :=
  c10_zero_retry_attempts noFs baseConfig zeroRetryOptions alwaysFailConn 9 rfl rfl

/-! ## Credential vault (credential_vault.rs) -/

/-- Vault errors (enum VaultError). SerializationError carries a
serde_json::Error in the source, abstracted away here. -/
inductive VaultError where
  | KeyringError (msg : String)
  | EncryptionError (msg : String)
  | DecryptionError (msg : String)
  | SerializationError
  | ProfileNotFound (id : String)
  | InvalidCredentialsFormat
  | MasterKeyError
deriving DecidableEq, Repr

/-- Outcome of a vault operation: a value, a typed error, or a Rust panic.
The panic constructor models GenericArray::from_slice aborting the thread on
a wrong-length slice. -/
inductive VaultOutcome (α : Type) where
  | ok (a : α)
  | err (e : VaultError)
  | panicked
deriving DecidableEq, Repr

/-- Credentials (struct Credentials); encrypted_at is an integer timestamp. -/
structure Credentials where
  username : String
  password : String
  encrypted_at : Nat
deriving DecidableEq, Repr

/-- Encrypted credentials stored in the keyring (struct EncryptedCredentials).
The base64 strings of the source are modelled as symbol lists. -/
structure EncryptedCredentials where
  encrypted_data : List Nat
  nonce : List Nat
  encrypted_at : Nat
deriving DecidableEq, Repr

/-- Master key record stored in the keyring (struct MasterKeyInfo): only a
hash fingerprint and a creation timestamp, never raw key bytes. -/
structure MasterKeyInfo where
  key_hash : Nat
  created_at : Nat
deriving DecidableEq, Repr

/-- The vault (struct CredentialVault): service name and optional in-memory
master key (32 bytes, modelled as a list). -/
structure CredentialVault where
  service_name : String
  master_key : Option (List Nat)
deriving DecidableEq, Repr

/-- Platform keystore for one service (keyring::Entry store): a map from
entry name to stored payload. -/
def Keystore : Type := String → Option (List Nat)

/-- Keystore write (Entry::set_password). -/
def ksSet (ks : Keystore) (k : String) (v : List Nat) : Keystore :=
  fun x => if x = k then some v else ks x

/-- Modelled contract of the external base64 engine
(general_purpose::STANDARD): an injective encoding of byte lists into symbol
lists whose decoder rejects malformed input. Each byte b becomes the two
symbols 1, b; odd-length strings or corrupted markers fail to decode. -/
def b64encode (bs : List Nat) : List Nat :=
  bs.flatMap fun b => [1, b]

/-- Decoder of the modelled base64 contract; none on malformed input. -/
def b64decode : List Nat → Option (List Nat)
  | [] => some []
  | 1 :: b :: rest => (b64decode rest).map fun bs => b :: bs
  | _ => none

/-- Modelled contract of the external aes_gcm crate (AES-256-GCM encrypt): an
idealized authenticated cipher whose ciphertext binds the key and carries an
exact integrity tag over key, nonce and body, giving the AEAD guarantees
(round trip, key binding, tamper rejection) that the real scheme provides
with overwhelming probability. -/
def aeadEncrypt (key nonce pt : List Nat) : List Nat :=
  key ++ pt ++ [key.sum + nonce.sum + pt.sum]

/-- Modelled contract of the external aes_gcm crate (AES-256-GCM decrypt):
verify the key binding and the tag; on any mismatch return none
(aead::Error), never partial plaintext. -/
def aeadDecrypt (key nonce ct : List Nat) : Option (List Nat) :=
  let rest := ct.drop key.length
  match rest.getLast? with
  | none => none
  | some tag =>
    let body := rest.dropLast
    if ct.take key.length = key ∧ tag = key.sum + nonce.sum + body.sum then
      some body
    else none

/-- Shallow embedding of encrypt_data: the fresh 96-bit nonce drawn from
OsRng is an environment parameter; the ciphertext and nonce are stored
base64-encoded with the encryption timestamp. -/
def encrypt_data (data : List Nat) (key : List Nat) (nonce : List Nat)
    (now : Nat) : EncryptedCredentials :=
  { encrypted_data := b64encode (aeadEncrypt key nonce data),
    nonce := b64encode nonce,
    encrypted_at := now }

/-- Shallow embedding of decrypt_data: base64-decode the nonce (failure is
DecryptionError); Nonce::from_slice PANICS when the decoded nonce is not 12
bytes (GenericArray length assertion), modelled as the panicked outcome;
base64-decode the ciphertext (failure is DecryptionError); AES-GCM decrypt,
whose failure is DecryptionError. -/
def decrypt_data (encrypted : EncryptedCredentials) (key : List Nat) :
    VaultOutcome (List Nat) :=
  match b64decode encrypted.nonce with
  | none => .err (.DecryptionError "Invalid nonce")
  | some nonce_bytes =>
    if nonce_bytes.length ≠ 12 then .panicked
    else
      match b64decode encrypted.encrypted_data with
      | none => .err (.DecryptionError "Invalid ciphertext")
      | some ciphertext =>
        match aeadDecrypt key nonce_bytes ciphertext with
        | none => .err (.DecryptionError "aead::Error")
        | some plaintext => .ok plaintext

/-- Length-prefixed string encoding, part of the modelled serde_json
contract: injective, decoded by decodeStr. -/
def encodeStr (s : String) : List Nat :=
  s.length :: s.data.map Char.toNat

/-- Modelled contract of serde_json::to_string for Credentials: an injective
encoding into symbol lists. -/
def serializeCredentials (c : Credentials) : List Nat :=
  encodeStr c.username ++ encodeStr c.password ++ [c.encrypted_at]

/-- Decoder for one length-prefixed string, returning the remainder. -/
def decodeStr : List Nat → Option (String × List Nat)
  | [] => none
  | n :: rest =>
    if n ≤ rest.length then
      some (String.mk ((rest.take n).map Char.ofNat), rest.drop n)
    else none

/-- Modelled contract of String::from_utf8 plus serde_json::from_str for
Credentials: inverse of serializeCredentials, none on any malformed input. -/
def deserializeCredentials (bs : List Nat) : Option Credentials :=
  match decodeStr bs with
  | none => none
  | some (u, rest1) =>
    match decodeStr rest1 with
    | none => none
    | some (p, rest2) =>
      match rest2 with
      | [t] => some { username := u, password := p, encrypted_at := t }
      | _ => none

/-- Length-prefixed raw list encoding used by the keystore record codec. -/
def encodeSeg (l : List Nat) : List Nat := l.length :: l

/-- Decoder for one length-prefixed segment, returning the remainder. -/
def decodeSeg : List Nat → Option (List Nat × List Nat)
  | [] => none
  | n :: rest =>
    if n ≤ rest.length then some (rest.take n, rest.drop n) else none

/-- Modelled contract of serde_json::to_string for EncryptedCredentials (the
payload written to the keystore entry): injective, decoded by decodeEC. -/
def encodeEC (r : EncryptedCredentials) : List Nat :=
  encodeSeg r.encrypted_data ++ encodeSeg r.nonce ++ [r.encrypted_at]

/-- Modelled contract of serde_json::from_str for EncryptedCredentials. -/
def decodeEC (bs : List Nat) : Option EncryptedCredentials :=
  match decodeSeg bs with
  | none => none
  | some (ed, rest1) =>
    match decodeSeg rest1 with
    | none => none
    | some (nn, rest2) =>
      match rest2 with
      | [t] => some { encrypted_data := ed, nonce := nn, encrypted_at := t }
      | _ => none

/-- Shallow embedding of store_credentials: requires the master key,
serializes and encrypts the credentials with a fresh nonce, writes the single
keystore entry profile_<id>. -/
def store_credentials (vault : CredentialVault) (ks : Keystore)
    (profile_id : String) (credentials : Credentials) (nonce : List Nat)
    (now : Nat) : VaultOutcome Keystore :=
  match vault.master_key with
  | none => .err .MasterKeyError
  | some master_key =>
    let encrypted := encrypt_data (serializeCredentials credentials) master_key
      nonce now
    .ok (ksSet ks ("profile_" ++ profile_id) (encodeEC encrypted))

/-- Shallow embedding of retrieve_credentials: requires the master key; a
missing entry is ProfileNotFound; the stored record is parsed (serde failure
is SerializationError), decrypted by decrypt_data, and deserialized (the
non-UTF8 and serde failures of the plaintext collapse into the parse failure
of deserializeCredentials). -/
def retrieve_credentials (vault : CredentialVault) (ks : Keystore)
    (profile_id : String) : VaultOutcome Credentials :=
  match vault.master_key with
  | none => .err .MasterKeyError
  | some master_key =>
    match ks ("profile_" ++ profile_id) with
    | none => .err (.ProfileNotFound profile_id)
    | some raw =>
      match decodeEC raw with
      | none => .err .SerializationError
      | some encrypted =>
        match decrypt_data encrypted master_key with
        | .panicked => .panicked
        | .err e => .err e
        | .ok plaintext =>
          match deserializeCredentials plaintext with
          | none => .err .SerializationError
          | some credentials => .ok credentials

/-- Modelled contract of the external md5 crate: a deterministic,
non-invertible digest of the key bytes. -/
def mdHash (key : List Nat) : Nat := key.sum

/-- Encoding of the master key record written to the keystore (serde_json of
MasterKeyInfo): fingerprint and timestamp only. -/
def encodeKeyInfo (info : MasterKeyInfo) : List Nat :=
  [info.key_hash, info.created_at]

/-- Decoder of the master key record. -/
def decodeKeyInfo : List Nat → Option MasterKeyInfo
  | [h, t] => some { key_hash := h, created_at := t }
  | _ => none

/-- Shallow embedding of load_or_create_master_key; fresh is the 32-byte
output of OsRng for this call, now the clock. When a record exists and
parses, the source notes it and then generates a new key anyway, leaving the
stored record untouched; when none exists it writes a record holding only the
md5 fingerprint of the fresh key and the timestamp. -/
def load_or_create_master_key (vault : CredentialVault) (ks : Keystore)
    (fresh : List Nat) (now : Nat) : VaultOutcome (CredentialVault × Keystore) :=
  match ks "master_key" with
  | some key_data =>
    match decodeKeyInfo key_data with
    | none => .err .SerializationError
    | some _key_info =>
      .ok ({ vault with master_key := some fresh }, ks)
  | none =>
    let key_info : MasterKeyInfo := { key_hash := mdHash fresh, created_at := now }
    .ok ({ vault with master_key := some fresh },
      ksSet ks "master_key" (encodeKeyInfo key_info))

lemma b64decode_encode (bs : List Nat) : b64decode (b64encode bs) = some bs := by
  induction bs with
  | nil => rfl
  | cons b t ih =>
    show b64decode (1 :: b :: b64encode t) = some (b :: t)
    simp [b64decode, ih]

lemma b64encode_length (bs : List Nat) : (b64encode bs).length = 2 * bs.length := by
  induction bs with
  | nil => rfl
  | cons b t ih =>
    show (1 :: b :: b64encode t).length = 2 * (t.length + 1)
    simp [ih]
    omega

lemma aeadDecrypt_of_shape (key nonce : List Nat) (k2 body : List Nat) (tag : Nat)
    (hk : k2.length = key.length) :
    aeadDecrypt key nonce (k2 ++ (body ++ [tag])) =
      if k2 = key ∧ tag = key.sum + nonce.sum + body.sum then some body
      else none := by
  simp only [aeadDecrypt]
  rw [show (k2 ++ (body ++ [tag])).drop key.length = body ++ [tag] from by
    rw [← hk, List.drop_left]]
  rw [show (k2 ++ (body ++ [tag])).take key.length = k2 from by
    rw [← hk, List.take_left]]
  rw [List.getLast?_concat, List.dropLast_concat]

lemma aeadDecrypt_encrypt (key nonce pt : List Nat) :
    aeadDecrypt key nonce (aeadEncrypt key nonce pt) = some pt := by
  rw [show aeadEncrypt key nonce pt =
      key ++ (pt ++ [key.sum + nonce.sum + pt.sum]) from by
    simp [aeadEncrypt]]
  rw [aeadDecrypt_of_shape key nonce key pt _ rfl]
  simp

lemma aeadDecrypt_wrong_key (key key2 nonce pt : List Nat)
    (hlen : key2.length = key.length) (hne : key2 ≠ key) :
    aeadDecrypt key2 nonce (aeadEncrypt key nonce pt) = none := by
  rw [show aeadEncrypt key nonce pt =
      key ++ (pt ++ [key.sum + nonce.sum + pt.sum]) from by
    simp [aeadEncrypt]]
  rw [aeadDecrypt_of_shape key2 nonce key pt _ hlen.symm]
  rw [if_neg]
  rintro ⟨h1, _⟩
  exact hne h1.symm

lemma set_append_left {α : Type} (l m : List α) (i : Nat) (v : α)
    (h : i < l.length) : (l ++ m).set i v = l.set i v ++ m := by
  induction l generalizing i with
  | nil => simp at h
  | cons a l ih =>
    cases i with
    | zero => simp [List.set]
    | succ i =>
      simp only [List.cons_append, List.set, List.cons.injEq, true_and]
      exact ih i (by simpa using h)

lemma set_append_right {α : Type} (l m : List α) (i : Nat) (v : α)
    (h : l.length ≤ i) : (l ++ m).set i v = l ++ m.set (i - l.length) v := by
  induction l generalizing i with
  | nil => simp
  | cons a l ih =>
    cases i with
    | zero => simp at h
    | succ i =>
      simp only [List.cons_append, List.set, List.length_cons,
        Nat.succ_sub_succ, List.cons.injEq, true_and]
      exact ih i (by simpa using h)

lemma sum_set_ne (l : List Nat) (j v : Nat) (h : j < l.length)
    (hne : v ≠ l.get ⟨j, h⟩) : (l.set j v).sum ≠ l.sum := by
  have hdec : l = l.take j ++ l.get ⟨j, h⟩ :: l.drop (j + 1) := by
    conv_lhs => rw [← List.take_append_drop j l]
    congr 1
    rw [List.drop_eq_getElem_cons h]
    simp [List.get_eq_getElem]
  rw [List.set_eq_take_cons_drop v h]
  conv_rhs => rw [hdec]
  simp only [List.sum_append, List.sum_cons]
  omega

lemma aeadDecrypt_flip (key nonce pt : List Nat) (i v : Nat)
    (hi : i < (aeadEncrypt key nonce pt).length)
    (hv : v ≠ (aeadEncrypt key nonce pt).get ⟨i, hi⟩) :
    aeadDecrypt key nonce ((aeadEncrypt key nonce pt).set i v) = none := by
  have hshape : aeadEncrypt key nonce pt =
      key ++ (pt ++ [key.sum + nonce.sum + pt.sum]) := by
    simp [aeadEncrypt]
  have hlen : (aeadEncrypt key nonce pt).length = key.length + pt.length + 1 := by
    rw [hshape]
    simp
    omega
  rcases Nat.lt_or_ge i key.length with hik | hik
  · -- flip inside the embedded key: the key-binding check fails
    have hget : (aeadEncrypt key nonce pt).get ⟨i, hi⟩ = key.get ⟨i, hik⟩ := by
      rw [List.get_eq_getElem, List.get_eq_getElem]
      simp only [hshape]
      exact List.getElem_append_left hik
    have hset : (aeadEncrypt key nonce pt).set i v =
        key.set i v ++ (pt ++ [key.sum + nonce.sum + pt.sum]) := by
      rw [hshape, set_append_left _ _ _ _ hik]
    rw [hset, aeadDecrypt_of_shape _ _ _ _ _ (List.length_set key i v)]
    rw [if_neg]
    rintro ⟨h1, _⟩
    apply hv
    rw [hget]
    have h2 := congrArg (fun l : List Nat => l[i]?) h1
    simp only [List.getElem?_set_eq hik, List.getElem?_eq_getElem hik] at h2
    rw [List.get_eq_getElem]
    exact Option.some.inj h2
  · rcases Nat.lt_or_ge i (key.length + pt.length) with hib | hib
    · -- flip inside the ciphertext body: the tag check fails
      have hj : i - key.length < pt.length := by omega
      have hget : (aeadEncrypt key nonce pt).get ⟨i, hi⟩ =
          pt.get ⟨i - key.length, hj⟩ := by
        rw [List.get_eq_getElem, List.get_eq_getElem]
        simp only [hshape]
        rw [List.getElem_append_right hik]
        exact List.getElem_append_left hj
      have hset : (aeadEncrypt key nonce pt).set i v =
          key ++ (pt.set (i - key.length) v ++ [key.sum + nonce.sum + pt.sum]) := by
        rw [hshape, set_append_right _ _ _ _ hik,
          set_append_left _ _ _ _ hj]
      rw [hset, aeadDecrypt_of_shape _ _ _ _ _ rfl]
      rw [if_neg]
      rintro ⟨_, h2⟩
      have hsum : (pt.set (i - key.length) v).sum ≠ pt.sum :=
        sum_set_ne pt (i - key.length) v hj (by rw [← hget]; exact hv)
      omega
    · -- flip of the tag position: the stored tag no longer matches
      have hieq : i = key.length + pt.length := by omega
      have hget : (aeadEncrypt key nonce pt).get ⟨i, hi⟩ =
          key.sum + nonce.sum + pt.sum := by
        rw [List.get_eq_getElem]
        simp only [hshape]
        rw [List.getElem_append_right hik]
        rw [List.getElem_append_right (by simp [hieq])]
        simp [hieq]
      have hset : (aeadEncrypt key nonce pt).set i v = key ++ (pt ++ [v]) := by
        rw [hshape, set_append_right _ _ _ _ hik,
          set_append_right _ _ _ _ (by simp [hieq]),
          show ∀ j, j = 0 → [key.sum + nonce.sum + pt.sum].set j v = [v] from by
            rintro j rfl; rfl]
        simp [hieq]
      rw [hset, aeadDecrypt_of_shape _ _ _ _ _ rfl]
      rw [if_neg]
      rintro ⟨_, h2⟩
      apply hv
      rw [hget, ← h2]

lemma decodeStr_encodeStr (s : String) (tail : List Nat) :
    decodeStr (encodeStr s ++ tail) = some (s, tail) := by
  obtain ⟨data⟩ := s
  simp only [encodeStr, List.cons_append, decodeStr]
  have hlen : ((String.mk data).data.map Char.toNat).length = (String.mk data).length := by
    simp [String.length]
  rw [if_pos (by rw [List.length_append, hlen]; omega)]
  rw [show (String.mk data).length = ((String.mk data).data.map Char.toNat).length from
    hlen.symm]
  rw [List.take_left, List.drop_left]
  simp only [List.map_map]
  rw [show Char.ofNat ∘ Char.toNat = id from funext fun c => Char.ofNat_toNat c,
    List.map_id]

lemma deserialize_serialize (c : Credentials) :
    deserializeCredentials (serializeCredentials c) = some c := by
  obtain ⟨u, p, t⟩ := c
  simp only [serializeCredentials, deserializeCredentials, List.append_assoc]
  rw [decodeStr_encodeStr]
  dsimp only
  rw [decodeStr_encodeStr]

lemma decodeSeg_encodeSeg (l tail : List Nat) :
    decodeSeg (encodeSeg l ++ tail) = some (l, tail) := by
  simp only [encodeSeg, List.cons_append, decodeSeg]
  rw [if_pos (by simp)]
  rw [List.take_left, List.drop_left]

lemma decodeEC_encodeEC (r : EncryptedCredentials) :
    decodeEC (encodeEC r) = some r := by
  obtain ⟨ed, nn, t⟩ := r
  simp only [encodeEC, decodeEC, List.append_assoc]
  rw [decodeSeg_encodeSeg]
  dsimp only
  rw [decodeSeg_encodeSeg]

lemma decrypt_encrypt_roundtrip (pt key nonce : List Nat) (now : Nat)
    (hn : nonce.length = 12) :
    decrypt_data (encrypt_data pt key nonce now) key = .ok pt := by
  simp only [decrypt_data, encrypt_data, b64decode_encode]
  rw [if_neg (by simp [hn])]
  simp [aeadDecrypt_encrypt]

/-- Claim C7. On an initialized vault (master key in memory): retrieve fails
with ProfileNotFound when no keystore entry exists for the profile; a stored
record whose ciphertext was tampered with in any single position fails tag
verification with DecryptionError, and a stored record whose nonce field is
malformed base64 fails with DecryptionError; and after a successful
store_credentials, retrieve_credentials returns exactly the stored
credentials (in particular equal username and password). -/
theorem c7_retrieve_semantics :
    (∀ (vault : CredentialVault) (ks : Keystore) (pid : String) (mk : List Nat),
      vault.master_key = some mk → ks ("profile_" ++ pid) = none →
      retrieve_credentials vault ks pid = .err (.ProfileNotFound pid)) ∧
    (∀ (vault : CredentialVault) (ks : Keystore) (pid : String) (mk : List Nat)
      (c : Credentials) (nonce : List Nat) (now i v : Nat)
      (hi : i < (aeadEncrypt mk nonce (serializeCredentials c)).length),
      vault.master_key = some mk → nonce.length = 12 →
      v ≠ (aeadEncrypt mk nonce (serializeCredentials c)).get ⟨i, hi⟩ →
      ks ("profile_" ++ pid) = some (encodeEC
        { encrypted_data := b64encode
            ((aeadEncrypt mk nonce (serializeCredentials c)).set i v),
          nonce := b64encode nonce, encrypted_at := now }) →
      retrieve_credentials vault ks pid = .err (.DecryptionError "aead::Error")) ∧
    (∀ (vault : CredentialVault) (ks : Keystore) (pid : String) (mk : List Nat)
      (raw : List Nat) (enc : EncryptedCredentials),
      vault.master_key = some mk →
      ks ("profile_" ++ pid) = some raw → decodeEC raw = some enc →
      b64decode enc.nonce = none →
      retrieve_credentials vault ks pid = .err (.DecryptionError "Invalid nonce")) ∧
    (∀ (vault : CredentialVault) (ks : Keystore) (pid : String) (c : Credentials)
      (mk nonce : List Nat) (now : Nat),
      vault.master_key = some mk → nonce.length = 12 →
      ∃ ks2, store_credentials vault ks pid c nonce now = .ok ks2 ∧
        retrieve_credentials vault ks2 pid = .ok c) := by
  refine ⟨?_, ?_, ?_, ?_⟩
  · intro vault ks pid mk hmk hks
    simp only [retrieve_credentials, hmk, hks]
  · intro vault ks pid mk c nonce now i v hi hmk hn hv hks
    simp only [retrieve_credentials, hmk, hks, decodeEC_encodeEC]
    simp only [decrypt_data, b64decode_encode]
    rw [if_neg (by simp [hn])]
    simp only [b64decode_encode, aeadDecrypt_flip mk nonce
      (serializeCredentials c) i v hi hv]
  · intro vault ks pid mk raw enc hmk hks hdec hnonce
    simp only [retrieve_credentials, hmk, hks, hdec]
    simp only [decrypt_data, hnonce]
  · intro vault ks pid c mk nonce now hmk hn
    refine ⟨ksSet ks ("profile_" ++ pid)
      (encodeEC (encrypt_data (serializeCredentials c) mk nonce now)), ?_, ?_⟩
    · simp only [store_credentials, hmk]
    · simp only [retrieve_credentials, hmk, ksSet, if_pos rfl, if_true,
        decodeEC_encodeEC, decrypt_encrypt_roundtrip _ _ _ _ hn,
        deserialize_serialize]

/-- A 32-byte all-zero master key. -/
def zeroKey : List Nat := List.replicate 32 0

/-- A 12-byte all-zero nonce. -/
def zeroNonce : List Nat := List.replicate 12 0

/-- Initialized vault holding the zero key. -/
def vault0 : CredentialVault :=
  { service_name := "app_credentials", master_key := some zeroKey }

/-- Empty keystore. -/
def emptyKs : Keystore := fun _ => none

/-- Concrete credentials used in the vault witnesses. -/
def creds0 : Credentials :=
  { username := "testuser", password := "testpass", encrypted_at := 7 }

/-- Witness for claim C7: retrieving an unknown profile from the empty
keystore fails with ProfileNotFound, and storing then retrieving concrete
credentials round-trips on the initialized vault. -/
theorem c7_retrieve_semantics_witness :
    retrieve_credentials vault0 emptyKs "p1" = .err (.ProfileNotFound "p1") ∧
    ∃ ks2, store_credentials vault0 emptyKs "p1" creds0 zeroNonce 7 = .ok ks2 ∧
      retrieve_credentials vault0 ks2 "p1" = .ok creds0 := by
  refine ⟨c7_retrieve_semantics.1 vault0 emptyKs "p1" zeroKey rfl rfl, ?_⟩
  exact c7_retrieve_semantics.2.2.2 vault0 emptyKs "p1" creds0 zeroKey zeroNonce 7
    rfl (by simp [zeroNonce])

/-- Claim C8. The cipher round-trips on every byte string (including the
empty one); decrypting with a different key fails closed with
DecryptionError; decrypting a ciphertext with any single position tampered
fails closed with DecryptionError; malformed base64 fails closed with
DecryptionError; BUT a stored nonce that decodes to a wrong-length byte
string does not yield DecryptionError: the source calls Nonce::from_slice,
whose length assertion panics, modelled by the panicked outcome - evaluated
at the concrete failing input (a record whose nonce is the base64 of 5
bytes). -/
theorem c8_cipher_properties :
    (∀ (pt key nonce : List Nat) (now : Nat), nonce.length = 12 →
      decrypt_data (encrypt_data pt key nonce now) key = .ok pt) ∧
    (∀ (pt key key2 nonce : List Nat) (now : Nat), nonce.length = 12 →
      key2.length = key.length → key2 ≠ key →
      decrypt_data (encrypt_data pt key nonce now) key2 =
        .err (.DecryptionError "aead::Error")) ∧
    (∀ (pt key nonce : List Nat) (now i v : Nat)
      (hi : i < (aeadEncrypt key nonce pt).length), nonce.length = 12 →
      v ≠ (aeadEncrypt key nonce pt).get ⟨i, hi⟩ →
      decrypt_data
        { encrypted_data := b64encode ((aeadEncrypt key nonce pt).set i v),
          nonce := b64encode nonce, encrypted_at := now } key =
        .err (.DecryptionError "aead::Error")) ∧
    (∀ (key bad ed : List Nat) (now : Nat),
      b64decode bad = none →
      decrypt_data { encrypted_data := ed, nonce := bad, encrypted_at := now }
        key = .err (.DecryptionError "Invalid nonce")) ∧
    (∀ (key nb ed : List Nat) (now : Nat), nb.length ≠ 12 →
      decrypt_data
        { encrypted_data := ed, nonce := b64encode nb,
          encrypted_at := now } key = .panicked) ∧
    decrypt_data
      { encrypted_data := b64encode [],
        nonce := b64encode [0, 0, 0, 0, 0], encrypted_at := 0 } zeroKey =
      .panicked := by
  refine ⟨?_, ?_, ?_, ?_, ?_, ?_⟩
  · intro pt key nonce now hn
    exact decrypt_encrypt_roundtrip pt key nonce now hn
  · intro pt key key2 nonce now hn hlen hne
    simp only [decrypt_data, encrypt_data, b64decode_encode]
    rw [if_neg (by simp [hn])]
    simp only [b64decode_encode, aeadDecrypt_wrong_key key key2 nonce pt hlen hne]
  · intro pt key nonce now i v hi hn hv
    simp only [decrypt_data, b64decode_encode]
    rw [if_neg (by simp [hn])]
    simp only [b64decode_encode, aeadDecrypt_flip key nonce pt i v hi hv]
  · intro key bad ed now hbad
    simp only [decrypt_data, hbad]
  · intro key nb ed now hlen
    simp only [decrypt_data, b64decode_encode]
    rw [if_pos hlen]
  · simp only [decrypt_data, b64decode_encode]
    rw [if_pos (by simp)]

/-- Witness for claim C8: the cipher round-trip evaluated at a concrete
two-byte plaintext under the zero key and nonce, and the panic divergence at
the concrete 5-byte-nonce record. -/
theorem c8_cipher_properties_witness :
    decrypt_data (encrypt_data [7, 9] zeroKey zeroNonce 3) zeroKey = .ok [7, 9] ∧
    decrypt_data
      { encrypted_data := b64encode [],
        nonce := b64encode [0, 0, 0, 0, 0], encrypted_at := 0 } zeroKey =
      .panicked :=
  ⟨c8_cipher_properties.1 [7, 9] zeroKey zeroNonce 3 (by simp [zeroNonce]),
   c8_cipher_properties.2.2.2.2.2⟩

/-- Claim C9. When a master-key record already exists in the keystore (and
parses), load_or_create_master_key sets the in-memory key to the fresh output
of the secure random source - for every stored record, independently of its
content - and leaves the keystore unchanged (no reuse of or derivation from
persisted key material); on first initialization the stored record holds only
the md5 fingerprint of the key and the creation timestamp, never raw key
bytes: two keys with equal fingerprints produce identical records. -/
theorem c9_master_key_regeneration :
    (∀ (vault : CredentialVault) (ks : Keystore) (fresh : List Nat) (now : Nat)
      (key_data : List Nat) (info : MasterKeyInfo),
      ks "master_key" = some key_data → decodeKeyInfo key_data = some info →
      load_or_create_master_key vault ks fresh now =
        .ok ({ vault with master_key := some fresh }, ks)) ∧
    (∀ (vault : CredentialVault) (ks : Keystore) (fresh : List Nat) (now : Nat),
      ks "master_key" = none →
      load_or_create_master_key vault ks fresh now =
        .ok ({ vault with master_key := some fresh },
          ksSet ks "master_key" (encodeKeyInfo
            { key_hash := mdHash fresh, created_at := now }))) ∧
    (∀ (k k2 : List Nat) (now : Nat), mdHash k = mdHash k2 →
      encodeKeyInfo { key_hash := mdHash k, created_at := now } =
        encodeKeyInfo { key_hash := mdHash k2, created_at := now }) := by
  refine ⟨?_, ?_, ?_⟩
  · intro vault ks fresh now key_data info hks hinfo
    simp only [load_or_create_master_key, hks, hinfo]
  · intro vault ks fresh now hks
    simp only [load_or_create_master_key, hks]
  · intro k k2 now h
    rw [h]

/-- A 32-byte all-one fresh key. -/
def freshKey : List Nat := List.replicate 32 1

/-- Keystore already holding a master key record with fingerprint 5 created
at time 9. -/
def ksWithRecord : Keystore := ksSet emptyKs "master_key" [5, 9]

/-- Uninitialized vault. -/
def vaultNew : CredentialVault :=
  { service_name := "app_credentials", master_key := none }

/-- Witness for claim C9: with an existing stored record, initialization
installs exactly the fresh random key and leaves the keystore unchanged;
and the records of the two distinct keys [0, 1] and [1, 0] coincide (the
record holds a fingerprint, not the key). -/
theorem c9_master_key_regeneration_witness :
    load_or_create_master_key vaultNew ksWithRecord freshKey 3 =
      .ok ({ vaultNew with master_key := some freshKey }, ksWithRecord) ∧
    encodeKeyInfo { key_hash := mdHash [0, 1], created_at := 3 } =
      encodeKeyInfo { key_hash := mdHash [1, 0], created_at := 3 } := by
  refine ⟨c9_master_key_regeneration.1 vaultNew ksWithRecord freshKey 3 [5, 9]
      { key_hash := 5, created_at := 9 } rfl rfl,
    c9_master_key_regeneration.2.2 [0, 1] [1, 0] 3 (by decide)⟩

end PgAdmin
